import Mathlib

set_option maxHeartbeats 1000000

/-!
Verification development for the vulkan_video repository.

Shallow embedding of the components the claims concern:
bitstream segmenter (src/video/utils.rs), parameter-set parser
(src/src/video/h264/h264inspector.rs), decode-parameter builder
(src/src/video/h264/parameters.rs), command submission protocol
(src/src/queue.rs), image binding (src/src/resources/image.rs) and
the reference-counted resource ownership graph (src/src/device.rs,
src/src/allocation.rs, src/src/resources/buffer.rs).

Bytes are modelled as natural numbers; machine-integer narrowing casts
are made explicit where the source performs them. Rust panics
(unwrap, assert) are modelled by Option-valued functions returning none.
-/

namespace VulkanVideo

/-! ## Bitstream segmenter, from src/src/video/utils.rs -/

/-- Constant NAL_MIN_0_COUNT: how many 0 bytes we have to observe before a 1 byte means NAL. -/
def NAL_MIN_0_COUNT : Nat := 2

/-- Loop body of next_offset: scans the remaining bytes with a running count
of consecutive zero bytes (count_0 starts at 0 on each call); a 1 byte seen
with at least NAL_MIN_0_COUNT zeros directly before it returns the start
offset (index of the 1 byte minus NAL_MIN_0_COUNT) together with the
iterator position just after the consumed 1 byte.  Any other byte resets
the zero count. -/
def nextOff (count0 : Nat) (i : Nat) : List Nat → Option (Nat × Nat)
  | [] => none
  | b :: rest =>
    if b = 0 then nextOff (count0 + 1) (i + 1) rest
    else if b = 1 ∧ NAL_MIN_0_COUNT ≤ count0 then some (i - NAL_MIN_0_COUNT, i + 1)
    else nextOff 0 (i + 1) rest

/-- Function next_offset of utils.rs.  The Rust version advances a persistent
Enumerate iterator over the stream; here the iterator is the index pos of the
next unconsumed byte, and the result carries the new iterator position. -/
def next_offset (stream : List Nat) (pos : Nat) : Option (Nat × Nat) :=
  nextOff 0 pos (stream.drop pos)

/-- Enum NalIterState of utils.rs (field end renamed to stop, end is a Lean keyword). -/
inductive NalIterState where
  | Next (start stop : Nat)
  | Last (start : Nat)
  | End
deriving DecidableEq

/-- Struct NalIter of utils.rs: the source stream, the current position of the
shared Enumerate iterator, and the iteration state. -/
structure NalIter where
  stream : List Nat
  pos : Nat
  state : NalIterState
deriving DecidableEq

/-- Rust slice expression stream[start..stop]. -/
def slice (stream : List Nat) (start stop : Nat) : List Nat :=
  (stream.drop start).take (stop - start)

/-- NalIter::new: find the first two NAL starts to seed the state. -/
def NalIter.new (stream : List Nat) : NalIter :=
  match next_offset stream 0 with
  | some (offset, p1) =>
    match next_offset stream p1 with
    | some (noffset, p2) => { stream := stream, pos := p2, state := .Next offset noffset }
    | none => { stream := stream, pos := p1, state := .Last offset }
  | none => { stream := stream, pos := stream.length, state := .End }

/-- Iterator::next for NalIter: emits stream[start..stop] (or the trailing
slice) and advances the state using the next found offset. -/
def NalIter.step (it : NalIter) : Option (List Nat × NalIter) :=
  match it.state with
  | .Next start stop =>
    let nxt : NalIter :=
      match next_offset it.stream it.pos with
      | some (noffset, p) => { it with pos := p, state := .Next stop noffset }
      | none => { it with state := .Last stop }
    some (slice it.stream start stop, nxt)
  | .Last start => some (it.stream.drop start, { it with state := .End })
  | .End => none

/-- Collect the iterator's output.  The fuel argument only bounds the number
of iterator steps; stream.length + 2 steps always suffice (the iterator's
position strictly increases while in the Next state), which the equivalence
theorem with the declarative chunk decomposition certifies. -/
def NalIter.collect : Nat → NalIter → List (List Nat)
  | 0, _ => []
  | fuel + 1, it =>
    match it.step with
    | none => []
    | some (u, it') => u :: NalIter.collect fuel it'

/-- Function nal_units of src/src/video/mod.rs: iterate NalIter over the stream. -/
def nal_units (stream : List Nat) : List (List Nat) :=
  NalIter.collect (stream.length + 2) (NalIter.new stream)

/-- All start-code boundary offsets of a stream, found by iterating
next_offset from the given position (fueled; positions strictly increase so
the fuel used below is always sufficient). -/
def offsetsFrom : Nat → List Nat → Nat → List Nat
  | 0, _, _ => []
  | fuel + 1, stream, pos =>
    match next_offset stream pos with
    | none => []
    | some (o, p) => o :: offsetsFrom fuel stream p

/-- All start-code boundary offsets found from position pos, with sufficient fuel. -/
def offsetsAt (stream : List Nat) (pos : Nat) : List Nat :=
  offsetsFrom (stream.length + 1 - pos) stream pos

/-- All start-code boundary offsets of the stream. -/
def offsets (stream : List Nat) : List Nat :=
  offsetsFrom (stream.length + 1) stream 0

/-- Declarative chunk decomposition: given the list of unit boundaries,
unit i spans from its own boundary up to (not including) the next boundary,
and the last unit spans to the end of the buffer. -/
def chunks (stream : List Nat) : List Nat → List (List Nat)
  | [] => []
  | [a] => [stream.drop a]
  | a :: b :: rest => slice stream a b :: chunks stream (b :: rest)

/-- A byte list contains a start code when somewhere two consecutive 0 bytes
are followed by a 1 byte. -/
def hasStartCode : List Nat → Bool
  | a :: b :: c :: rest => (a = 0 && b = 0 && c = 1) || hasStartCode (b :: c :: rest)
  | _ => false

/-- The scan of nextOff fires inside the given byte list when started with
the given count of already-seen zero bytes. -/
def firesEarly : Nat → List Nat → Bool
  | _, [] => false
  | c, b :: rest =>
    if b = 0 then firesEarly (c + 1) rest
    else if b = 1 ∧ NAL_MIN_0_COUNT ≤ c then true
    else firesEarly 0 rest

/-- Whether the byte list starts with a 1 byte. -/
def head1 : List Nat → Bool
  | b :: _ => decide (b = 1)
  | _ => false

/-- Whether the byte list starts with a 0 byte followed by a 1 byte. -/
def head01 : List Nat → Bool
  | b0 :: b1 :: _ => decide (b0 = 0) && decide (b1 = 1)
  | _ => false

/-! ## Codec-neutral parameter-set records

Lean mirrors of the h264_reader records the repository reads.  Only the
fields accessed by the repository's code are modelled; library enums that
the code only observes through conversion methods (to_u8, get) are
represented by those observations. -/

/-- One CpbSpec of the h264_reader HRD parameters. -/
structure CpbSpec where
  bit_rate_value_minus1 : Nat
  cpb_size_value_minus1 : Nat
  cbr_flag : Bool
deriving DecidableEq

/-- Hypothetical-reference-decoder parameters (h264_reader nal::sps::HrdParameters). -/
structure HrdParameters where
  cpb_specs : List CpbSpec
  bit_rate_scale : Nat
  cpb_size_scale : Nat
  initial_cpb_removal_delay_length_minus1 : Nat
  cpb_removal_delay_length_minus1 : Nat
  dpb_output_delay_length_minus1 : Nat
  time_offset_length : Nat
deriving DecidableEq

/-- One scaling list (h264_reader nal::sps::ScalingList): absent from the
stream, use-default, or an explicit element list (source type is a fixed
size array of NonZeroU8; elements model the u8 values n.get()). -/
inductive ScalingList where
  | NotPresent
  | UseDefault
  | List (elems : List Nat)
deriving DecidableEq

/-- Scaling matrix carried by an SPS (h264_reader SeqScalingMatrix). -/
structure SeqScalingMatrix where
  scaling_list4x4 : List ScalingList
  scaling_list8x8 : List ScalingList
deriving DecidableEq

/-- Aspect-ratio enum, represented by the observations used by the builder:
the optional (sar_width, sar_height) pair of get() and the code of to_u8(). -/
structure AspectRatioInfo where
  get : Option (Nat × Nat)
  to_u8 : Nat
deriving DecidableEq

/-- Colour description inside VideoSignalType. -/
structure ColourDescription where
  colour_primaries : Nat
  transfer_characteristics : Nat
  matrix_coefficients : Nat
deriving DecidableEq

/-- Video signal type of the VUI; video_format is represented by its to_u8 code. -/
structure VideoSignalType where
  video_format : Nat
  video_full_range_flag : Bool
  colour_description : Option ColourDescription
deriving DecidableEq

/-- Timing info of the VUI. -/
structure TimingInfo where
  num_units_in_tick : Nat
  time_scale : Nat
  fixed_frame_rate_flag : Bool
deriving DecidableEq

/-- Bitstream restrictions of the VUI (fields used by the builder). -/
structure BitstreamRestrictions where
  max_num_reorder_frames : Nat
  max_dec_frame_buffering : Nat
deriving DecidableEq

/-- Chroma sample location info of the VUI. -/
structure ChromaLocInfo where
  chroma_sample_loc_type_top_field : Nat
  chroma_sample_loc_type_bottom_field : Nat
deriving DecidableEq

/-- Overscan-appropriate enum of h264_reader. -/
inductive OverscanAppropriate where
  | Unspecified
  | Appropriate
  | Inappropriate
deriving DecidableEq

/-- Code of VideoFormat::NTSC.to_u8() (H.264 table E-2). -/
def videoFormatNTSC : Nat := 2

/-- VUI parameters (fields read by the builder). -/
structure VuiParameters where
  aspect_ratio_info : Option AspectRatioInfo
  overscan_appropriate : OverscanAppropriate
  video_signal_type : Option VideoSignalType
  chroma_loc_info : Option ChromaLocInfo
  timing_info : Option TimingInfo
  nal_hrd_parameters : Option HrdParameters
  vcl_hrd_parameters : Option HrdParameters
  bitstream_restrictions : Option BitstreamRestrictions
deriving DecidableEq

/-- Constraint flags of an SPS, by their accessor methods flag0() .. flag5(). -/
structure ConstraintFlags where
  flag0 : Bool
  flag1 : Bool
  flag2 : Bool
  flag3 : Bool
  flag4 : Bool
  flag5 : Bool
deriving DecidableEq

/-- Chroma information of an SPS; chroma_format is represented by its to_u32 code. -/
structure ChromaInfo where
  chroma_format : Nat
  separate_colour_plane_flag : Bool
  bit_depth_luma_minus8 : Nat
  bit_depth_chroma_minus8 : Nat
  qpprime_y_zero_transform_bypass_flag : Bool
  scaling_matrix : Option SeqScalingMatrix
deriving DecidableEq

/-- Frame-mbs flags of an SPS. -/
inductive FrameMbsFlags where
  | Frames
  | Fields (mb_adaptive_frame_field_flag : Bool)
deriving DecidableEq

/-- Frame cropping rectangle of an SPS. -/
structure FrameCropping where
  left_offset : Nat
  right_offset : Nat
  top_offset : Nat
  bottom_offset : Nat
deriving DecidableEq

/-- Picture-order-count type of an SPS. -/
inductive PicOrderCntType where
  | TypeZero (log2_max_pic_order_cnt_lsb_minus4 : Nat)
  | TypeOne (delta_pic_order_always_zero_flag : Bool)
      (offset_for_non_ref_pic : Int)
      (offset_for_top_to_bottom_field : Int)
      (offsets_for_ref_frame : List Int)
  | TypeTwo
deriving DecidableEq

/-- Codec-neutral sequence parameter set (h264_reader SeqParameterSet, the
fields the repository reads; id methods .id() are inlined as Nat fields). -/
structure SeqParameterSet where
  profile_idc : Nat
  constraint_flags : ConstraintFlags
  level_idc : Nat
  seq_parameter_set_id : Nat
  chroma_info : ChromaInfo
  log2_max_frame_num_minus4 : Nat
  pic_order_cnt : PicOrderCntType
  max_num_ref_frames : Nat
  gaps_in_frame_num_value_allowed_flag : Bool
  pic_width_in_mbs_minus1 : Nat
  pic_height_in_map_units_minus1 : Nat
  frame_mbs_flags : FrameMbsFlags
  direct_8x8_inference_flag : Bool
  frame_cropping : Option FrameCropping
  vui_parameters : Option VuiParameters
deriving DecidableEq

/-- Scaling matrix carried by a PPS extension (h264_reader PicScalingMatrix). -/
structure PicScalingMatrix where
  scaling_list4x4 : List ScalingList
  scaling_list8x8 : Option (List ScalingList)
deriving DecidableEq

/-- PPS extension fields read by the builder. -/
structure PpsExtension where
  transform_8x8_mode_flag : Bool
  pic_scaling_matrix : Option PicScalingMatrix
  second_chroma_qp_index_offset : Int
deriving DecidableEq

/-- Codec-neutral picture parameter set (h264_reader PicParameterSet, the
fields the repository reads). -/
structure PicParameterSet where
  pic_parameter_set_id : Nat
  seq_parameter_set_id : Nat
  entropy_coding_mode_flag : Bool
  bottom_field_pic_order_in_frame_present_flag : Bool
  num_ref_idx_l0_default_active_minus1 : Nat
  num_ref_idx_l1_default_active_minus1 : Nat
  weighted_pred_flag : Bool
  weighted_bipred_idc : Nat
  pic_init_qp_minus26 : Int
  pic_init_qs_minus26 : Int
  chroma_qp_index_offset : Int
  deblocking_filter_control_present_flag : Bool
  constrained_intra_pred_flag : Bool
  redundant_pic_cnt_present_flag : Bool
  extension : Option PpsExtension
deriving DecidableEq

/-! ## Parameter context and the stream inspector, from
src/src/video/h264/h264inspector.rs

The h264_reader Context and the bit-level parsers live outside this
repository; they are modelled from the spec at the call boundary. -/

/-- Modelled from the spec: the h264_reader parameter context, a mapping from
parameter-set id to the most recently parsed SPS/PPS record, here an
insertion-ordered list per kind with insert/overwrite keyed by id. -/
structure Context where
  sps_entries : List SeqParameterSet
  pps_entries : List PicParameterSet
deriving DecidableEq

/-- Insert or overwrite a list entry by its key. -/
def putKeyed (key : α → Nat) (l : List α) (a : α) : List α :=
  if l.any (fun x => key x = key a) then
    l.map (fun x => if key x = key a then a else x)
  else l ++ [a]

/-- Modelled from the spec: Context::put_seq_param_set inserts or overwrites
the record keyed by its sequence-parameter-set id. -/
def Context.put_seq_param_set (ctx : Context) (s : SeqParameterSet) : Context :=
  { ctx with sps_entries := putKeyed SeqParameterSet.seq_parameter_set_id ctx.sps_entries s }

/-- Modelled from the spec: lookup of a sequence parameter set by id. -/
def Context.sps_by_id (ctx : Context) (id : Nat) : Option SeqParameterSet :=
  ctx.sps_entries.find? (fun s => s.seq_parameter_set_id = id)

/-- Modelled from the spec: lookup of a picture parameter set by id. -/
def Context.pps_by_id (ctx : Context) (id : Nat) : Option PicParameterSet :=
  ctx.pps_entries.find? (fun p => p.pic_parameter_set_id = id)

/-- Distinct error kinds of PPS parsing (h264_reader PpsError at the call
boundary): a bit-level decoding error, or the referenced sequence parameter
set is missing from the context. -/
inductive PpsError where
  | bitError
  | badSeqParamSetId (id : Nat)
deriving DecidableEq

/-- A NAL unit as feed_nal observes it: the header's unit type together with
the outcome of bit-level payload decoding.  malformedHeader stands for a NAL
whose header parse fails (nal.header() returns Err); for an SPS the payload
either decodes to a record or is malformed; for a PPS the bit-level decode
outcome is independent of the context, which is only consulted for the
referenced SPS. -/
inductive NalUnit where
  | malformedHeader
  | seqParameterSet (parsed : Option SeqParameterSet)
  | picParameterSet (parsed : Option PicParameterSet)
  | other
deriving DecidableEq

/-- Modelled from the spec: PicParameterSet::from_bits first performs the
bit-level decode, then looks up the referenced sequence parameter set in the
context and fails with the distinct missing-reference error kind when it is
absent. -/
def PicParameterSet.from_bits (ctx : Context) (parsed : Option PicParameterSet) :
    Except PpsError PicParameterSet :=
  match parsed with
  | none => .error .bitError
  | some pps =>
    match ctx.sps_by_id pps.seq_parameter_set_id with
    | some _ => .ok pps
    | none => .error (.badSeqParamSetId pps.seq_parameter_set_id)

/-- Struct H264StreamInspector of h264inspector.rs. -/
structure H264StreamInspector where
  h264_context : Context
deriving DecidableEq

/-- H264StreamInspector::new. -/
def H264StreamInspector.new : H264StreamInspector :=
  { h264_context := { sps_entries := [], pps_entries := [] } }

/-- H264StreamInspector::feed_nal.  Every unwrap() of the source is modelled
by none (a panic): a malformed header, a malformed SPS, and any failing PPS
parse panic.  A successfully parsed SPS is put into the context; a
successfully parsed PPS is bound to the unused variable _pps and dropped,
leaving the context unchanged; any other NAL type is ignored. -/
def H264StreamInspector.feed_nal (insp : H264StreamInspector) (nal : NalUnit) :
    Option H264StreamInspector :=
  match nal with
  | .malformedHeader => none
  | .seqParameterSet parsed =>
    match parsed with
    | none => none
    | some sps => some { h264_context := insp.h264_context.put_seq_param_set sps }
  | .picParameterSet parsed =>
    match PicParameterSet.from_bits insp.h264_context parsed with
    | .error _ => none
    | .ok _pps => some insp
  | .other => some insp

/-! ## Native (driver-shaped) structures and the decode-parameter builder,
from src/src/video/h264/parameters.rs

Bindgen bit-field structures are modelled as structures with one Bool field
per set accessor (all bits zero by default); null pointers into sibling
storage are modelled as Option values holding the pointed-to record. -/

/-- Narrowing cast Rust `as u8` on an unsigned value. -/
def u8cast (x : Nat) : Nat := x % 256

/-- Narrowing cast Rust `as i8` on a signed value. -/
def i8cast (x : Int) : Int := (x + 128) % 256 - 128

/-- StdVideoH264HrdParameters; the three 32-entry arrays are lists of length 32. -/
structure StdVideoH264HrdParameters where
  cpb_cnt_minus1 : Nat
  bit_rate_scale : Nat
  cpb_size_scale : Nat
  reserved1 : Nat
  bit_rate_value_minus1 : List Nat
  cpb_size_value_minus1 : List Nat
  cbr_flag : List Nat
  initial_cpb_removal_delay_length_minus1 : Nat
  cpb_removal_delay_length_minus1 : Nat
  dpb_output_delay_length_minus1 : Nat
  time_offset_length : Nat
deriving DecidableEq

/-- Loop `for (i, cpb) in hrd.cpb_specs.iter().enumerate()` of SpsInfo1::new:
writes each cpb spec into index i of the three arrays. -/
def hrdLoop (i : Nat) (br cs cf : List Nat) : List CpbSpec → List Nat × List Nat × List Nat
  | [] => (br, cs, cf)
  | c :: rest =>
    hrdLoop (i + 1) (br.set i c.bit_rate_value_minus1) (cs.set i c.cpb_size_value_minus1)
      (cf.set i (if c.cbr_flag then 1 else 0)) rest

/-- Body of the `.map(|hrd| ...)` closure in SpsInfo1::new, with the
`assert!((1..=32).contains(&hrd.cpb_specs.len()))` modelled as none on violation. -/
def buildHrd (hrd : HrdParameters) : Option StdVideoH264HrdParameters :=
  if 1 ≤ hrd.cpb_specs.length ∧ hrd.cpb_specs.length ≤ 32 then
    let arrs := hrdLoop 0 (List.replicate 32 0) (List.replicate 32 0) (List.replicate 32 0)
      hrd.cpb_specs
    some
      { cpb_cnt_minus1 := hrd.cpb_specs.length - 1
        bit_rate_scale := hrd.bit_rate_scale
        cpb_size_scale := hrd.cpb_size_scale
        reserved1 := 0
        bit_rate_value_minus1 := arrs.1
        cpb_size_value_minus1 := arrs.2.1
        cbr_flag := arrs.2.2
        initial_cpb_removal_delay_length_minus1 := hrd.initial_cpb_removal_delay_length_minus1
        cpb_removal_delay_length_minus1 := hrd.cpb_removal_delay_length_minus1
        dpb_output_delay_length_minus1 := hrd.dpb_output_delay_length_minus1
        time_offset_length := hrd.time_offset_length }
  else none

/-- Struct SpsInfo1 of parameters.rs (level-1 SPS record: the optional HRD parameters). -/
structure SpsInfo1 where
  sps : SeqParameterSet
  p_hrd_parameters : Option StdVideoH264HrdParameters
deriving DecidableEq

/-- SpsInfo1::new: build the optional HRD record from the VUI's nal HRD
parameters, falling back to the vcl HRD parameters. -/
def SpsInfo1.new (sps : SeqParameterSet) : Option SpsInfo1 :=
  let hrdOpt := sps.vui_parameters.bind fun vui =>
    match vui.nal_hrd_parameters with
    | some h => some h
    | none => vui.vcl_hrd_parameters
  match hrdOpt with
  | none => some { sps := sps, p_hrd_parameters := none }
  | some hrd =>
    match buildHrd hrd with
    | none => none
    | some h => some { sps := sps, p_hrd_parameters := some h }

/-- StdVideoH264SpsVuiFlags bit-field as one Bool per set accessor. -/
structure StdVideoH264SpsVuiFlags where
  aspect_ratio_info_present_flag : Bool
  overscan_info_present_flag : Bool
  overscan_appropriate_flag : Bool
  video_signal_type_present_flag : Bool
  video_full_range_flag : Bool
  color_description_present_flag : Bool
  chroma_loc_info_present_flag : Bool
  timing_info_present_flag : Bool
  fixed_frame_rate_flag : Bool
  bitstream_restriction_flag : Bool
  nal_hrd_parameters_present_flag : Bool
  vcl_hrd_parameters_present_flag : Bool
deriving DecidableEq

/-- All-zero default of the VUI flags bit-field. -/
def StdVideoH264SpsVuiFlags.default : StdVideoH264SpsVuiFlags :=
  ⟨false, false, false, false, false, false, false, false, false, false, false, false⟩

/-- StdVideoH264SequenceParameterSetVui; pHrdParameters points at the HRD
record owned by SpsInfo1 (null when absent). -/
structure StdVideoH264SequenceParameterSetVui where
  flags : StdVideoH264SpsVuiFlags
  aspect_ratio_idc : Nat
  sar_width : Nat
  sar_height : Nat
  video_format : Nat
  colour_primaries : Nat
  transfer_characteristics : Nat
  matrix_coefficients : Nat
  num_units_in_tick : Nat
  time_scale : Nat
  max_num_reorder_frames : Nat
  max_dec_frame_buffering : Nat
  chroma_sample_loc_type_top_field : Nat
  chroma_sample_loc_type_bottom_field : Nat
  reserved1 : Nat
  pHrdParameters : Option StdVideoH264HrdParameters
deriving DecidableEq

/-- Body of the `.map(|vui| ...)` closure in SpsInfo1::step2: assemble the
native VUI record and its flags from the codec-neutral VUI. -/
def buildVui (p_hrd_parameters : Option StdVideoH264HrdParameters) (vui : VuiParameters) :
    StdVideoH264SequenceParameterSetVui :=
  let flags := StdVideoH264SpsVuiFlags.default
  -- the source's set_overscan_info_present_flag call is commented out
  let flags := { flags with
    overscan_appropriate_flag := vui.overscan_appropriate == OverscanAppropriate.Appropriate }
  let flags := { flags with nal_hrd_parameters_present_flag := vui.nal_hrd_parameters.isSome }
  let flags := { flags with vcl_hrd_parameters_present_flag := vui.vcl_hrd_parameters.isSome }
  -- aspect_ratio_info
  let ar : Nat × Nat × Nat :=
    match vui.aspect_ratio_info with
    | none => (0, 1, 1)
    | some ari =>
      match ari.get with
      | some (w, h) => (ari.to_u8, w, h)
      | none => (ari.to_u8, 1, 1)
  let flags := { flags with aspect_ratio_info_present_flag := vui.aspect_ratio_info.isSome }
  -- video_signal_type
  let vs : Nat × Nat × Nat × Nat :=
    match vui.video_signal_type with
    | none => (videoFormatNTSC, 2, 2, 2)
    | some v =>
      match v.colour_description with
      | some cd => (v.video_format, cd.colour_primaries, cd.transfer_characteristics,
          cd.matrix_coefficients)
      | none => (v.video_format, 2, 2, 2)
  let flags :=
    match vui.video_signal_type with
    | none => flags
    | some v => { flags with
        color_description_present_flag := v.colour_description.isSome
        video_full_range_flag := v.video_full_range_flag }
  let flags := { flags with video_signal_type_present_flag := vui.video_signal_type.isSome }
  -- timing_info
  let ti : Nat × Nat :=
    match vui.timing_info with
    | none => (0, 0)
    | some t => (t.num_units_in_tick, t.time_scale)
  let flags :=
    match vui.timing_info with
    | none => flags
    | some t => { flags with fixed_frame_rate_flag := t.fixed_frame_rate_flag }
  let flags := { flags with timing_info_present_flag := vui.timing_info.isSome }
  -- bitstream_restrictions
  let br : Nat × Nat :=
    match vui.bitstream_restrictions with
    | none => (0, 0)
    | some b => (u8cast b.max_num_reorder_frames, u8cast b.max_dec_frame_buffering)
  let flags := { flags with bitstream_restriction_flag := vui.bitstream_restrictions.isSome }
  -- chroma_loc_info
  let cl : Nat × Nat :=
    match vui.chroma_loc_info with
    | none => (0, 0)
    | some c => (u8cast c.chroma_sample_loc_type_top_field,
        u8cast c.chroma_sample_loc_type_bottom_field)
  let flags := { flags with chroma_loc_info_present_flag := vui.chroma_loc_info.isSome }
  { flags := flags
    aspect_ratio_idc := ar.1
    sar_width := ar.2.1
    sar_height := ar.2.2
    video_format := vs.1
    colour_primaries := vs.2.1
    transfer_characteristics := vs.2.2.1
    matrix_coefficients := vs.2.2.2
    num_units_in_tick := ti.1
    time_scale := ti.2
    max_num_reorder_frames := br.1
    max_dec_frame_buffering := br.2
    chroma_sample_loc_type_top_field := cl.1
    chroma_sample_loc_type_bottom_field := cl.2
    reserved1 := 0
    pHrdParameters := p_hrd_parameters }

/-- StdVideoH264ScalingLists: two presence masks and the 6 x 16 and 6 x 64
element arrays (lists of rows). -/
structure StdVideoH264ScalingLists where
  scaling_list_present_mask : Nat
  use_default_scaling_matrix_mask : Nat
  ScalingList4x4 : List (List Nat)
  ScalingList8x8 : List (List Nat)
deriving DecidableEq

/-- Constant SCALING_LIST4X4_NUM_ELEMENTS. -/
def SCALING_LIST4X4_NUM_ELEMENTS : Nat := 16

/-- Constant SCALING_LIST8X8_NUM_ELEMENTS. -/
def SCALING_LIST8X8_NUM_ELEMENTS : Nat := 64

/-- Constant SCALING_LIST4X4_NUM_LISTS. -/
def SCALING_LIST4X4_NUM_LISTS : Nat := 6

/-- Constant SCALING_LIST8X8_NUM_LISTS. -/
def SCALING_LIST8X8_NUM_LISTS : Nat := 6

/-- One `for (i, scaling_list) in ...enumerate()` loop of the scaling_list
function: i counts from 0; a NotPresent entry sets bit i + shift of the
present mask, a UseDefault entry sets bit i + shift of the use-default mask,
and a List entry writes its elements into row i (shift is 0 for the 4x4 loop
and SCALING_LIST4X4_NUM_LISTS for the 8x8 loop). -/
def slLoop (shift : Nat) : Nat → Nat → Nat → List (List Nat) → List ScalingList →
    Nat × Nat × List (List Nat)
  | _, pm, um, rows, [] => (pm, um, rows)
  | i, pm, um, rows, s :: rest =>
    match s with
    | .NotPresent => slLoop shift (i + 1) (pm ||| (1 <<< (i + shift))) um rows rest
    | .UseDefault => slLoop shift (i + 1) pm (um ||| (1 <<< (i + shift))) rows rest
    | .List elems => slLoop shift (i + 1) pm um (rows.set i elems) rest

/-- Function scaling_list of parameters.rs; the two leading asserts on the
input lengths are modelled as none on violation. -/
def scaling_list (scaling_list4x4 : List ScalingList) (scaling_list8x8 : List ScalingList) :
    Option StdVideoH264ScalingLists :=
  if scaling_list4x4.length ≤ SCALING_LIST4X4_NUM_LISTS ∧
      scaling_list8x8.length ≤ SCALING_LIST8X8_NUM_LISTS then
    let r4 := slLoop 0 0 0 0
      (List.replicate SCALING_LIST4X4_NUM_LISTS (List.replicate SCALING_LIST4X4_NUM_ELEMENTS 0))
      scaling_list4x4
    let r8 := slLoop SCALING_LIST4X4_NUM_LISTS 0 r4.1 r4.2.1
      (List.replicate SCALING_LIST8X8_NUM_LISTS (List.replicate SCALING_LIST8X8_NUM_ELEMENTS 0))
      scaling_list8x8
    some
      { scaling_list_present_mask := r8.1
        use_default_scaling_matrix_mask := r8.2.1
        ScalingList4x4 := r4.2.2
        ScalingList8x8 := r8.2.2 }
  else none

/-- Struct SpsInfo2 of parameters.rs (level-2 SPS records: optional scaling
lists and the optional VUI record that borrows the HRD record). -/
structure SpsInfo2 where
  sps : SeqParameterSet
  p_scaling_lists : Option StdVideoH264ScalingLists
  p_sequence_parameter_set_vui : Option StdVideoH264SequenceParameterSetVui
deriving DecidableEq

/-- SpsInfo1::step2. -/
def SpsInfo1.step2 (s : SpsInfo1) : Option SpsInfo2 :=
  let pslOpt : Option (Option StdVideoH264ScalingLists) :=
    match s.sps.chroma_info.scaling_matrix with
    | none => some none
    | some m => (scaling_list m.scaling_list4x4 m.scaling_list8x8).map some
  match pslOpt with
  | none => none
  | some p_scaling_lists =>
    some
      { sps := s.sps
        p_scaling_lists := p_scaling_lists
        p_sequence_parameter_set_vui := s.sps.vui_parameters.map (buildVui s.p_hrd_parameters) }

/-- StdVideoH264SpsFlags bit-field as one Bool per set accessor. -/
structure StdVideoH264SpsFlags where
  constraint_set0_flag : Bool
  constraint_set1_flag : Bool
  constraint_set2_flag : Bool
  constraint_set3_flag : Bool
  constraint_set4_flag : Bool
  constraint_set5_flag : Bool
  direct_8x8_inference_flag : Bool
  mb_adaptive_frame_field_flag : Bool
  frame_mbs_only_flag : Bool
  delta_pic_order_always_zero_flag : Bool
  separate_colour_plane_flag : Bool
  gaps_in_frame_num_value_allowed_flag : Bool
  qpprime_y_zero_transform_bypass_flag : Bool
  frame_cropping_flag : Bool
  seq_scaling_matrix_present_flag : Bool
  vui_parameters_present_flag : Bool
deriving DecidableEq

/-- All-zero default of the SPS flags bit-field. -/
def StdVideoH264SpsFlags.default : StdVideoH264SpsFlags :=
  ⟨false, false, false, false, false, false, false, false, false, false, false, false, false,
    false, false, false⟩

/-- StdVideoH264SequenceParameterSet; the three pointers hold the records
owned by the SpsInfo stages (null when absent). -/
structure StdVideoH264SequenceParameterSet where
  flags : StdVideoH264SpsFlags
  profile_idc : Nat
  level_idc : Nat
  chroma_format_idc : Nat
  seq_parameter_set_id : Nat
  bit_depth_luma_minus8 : Nat
  bit_depth_chroma_minus8 : Nat
  log2_max_frame_num_minus4 : Nat
  pic_order_cnt_type : Nat
  offset_for_non_ref_pic : Int
  offset_for_top_to_bottom_field : Int
  log2_max_pic_order_cnt_lsb_minus4 : Nat
  num_ref_frames_in_pic_order_cnt_cycle : Nat
  max_num_ref_frames : Nat
  reserved1 : Nat
  pic_width_in_mbs_minus1 : Nat
  pic_height_in_map_units_minus1 : Nat
  frame_crop_left_offset : Nat
  frame_crop_right_offset : Nat
  frame_crop_top_offset : Nat
  frame_crop_bottom_offset : Nat
  reserved2 : Nat
  pOffsetForRefFrame : Option (List Int)
  pScalingLists : Option StdVideoH264ScalingLists
  pSequenceParameterSetVui : Option StdVideoH264SequenceParameterSetVui
deriving DecidableEq

/-- SpsInfo2::step3: assemble the native sequence-parameter-set record. -/
def SpsInfo2.step3 (s : SpsInfo2) : StdVideoH264SequenceParameterSet :=
  let flags := StdVideoH264SpsFlags.default
  let flags := { flags with
    constraint_set0_flag := s.sps.constraint_flags.flag0
    constraint_set1_flag := s.sps.constraint_flags.flag1
    constraint_set2_flag := s.sps.constraint_flags.flag2
    constraint_set3_flag := s.sps.constraint_flags.flag3
    constraint_set4_flag := s.sps.constraint_flags.flag4
    constraint_set5_flag := s.sps.constraint_flags.flag5 }
  let flags := { flags with direct_8x8_inference_flag := s.sps.direct_8x8_inference_flag }
  -- frame_mbs_flags
  let flags :=
    match s.sps.frame_mbs_flags with
    | .Frames => { flags with frame_mbs_only_flag := true }
    | .Fields mb => { flags with mb_adaptive_frame_field_flag := mb }
  let flags := { flags with
    separate_colour_plane_flag := s.sps.chroma_info.separate_colour_plane_flag }
  let flags := { flags with
    gaps_in_frame_num_value_allowed_flag := s.sps.gaps_in_frame_num_value_allowed_flag }
  let flags := { flags with
    qpprime_y_zero_transform_bypass_flag := s.sps.chroma_info.qpprime_y_zero_transform_bypass_flag }
  -- frame_cropping
  let fc : Nat × Nat × Nat × Nat :=
    match s.sps.frame_cropping with
    | none => (0, 0, 0, 0)
    | some f => (f.left_offset, f.right_offset, f.top_offset, f.bottom_offset)
  let flags := { flags with frame_cropping_flag := s.sps.frame_cropping.isSome }
  let flags := { flags with seq_scaling_matrix_present_flag := s.p_scaling_lists.isSome }
  let flags := { flags with
    vui_parameters_present_flag := s.p_sequence_parameter_set_vui.isSome }
  -- pic_order_cnt
  let poc : Nat × Int × Int × Nat × Option (List Int) × StdVideoH264SpsFlags :=
    match s.sps.pic_order_cnt with
    | .TypeZero l => (0, 0, 0, l, none, flags)
    | .TypeOne dz onr ottb offs =>
      (1, onr, ottb, 0, some offs, { flags with delta_pic_order_always_zero_flag := dz })
    | .TypeTwo => (2, 0, 0, 0, none, flags)
  { flags := poc.2.2.2.2.2
    profile_idc := s.sps.profile_idc
    level_idc := s.sps.level_idc
    chroma_format_idc := s.sps.chroma_info.chroma_format
    seq_parameter_set_id := s.sps.seq_parameter_set_id
    bit_depth_luma_minus8 := s.sps.chroma_info.bit_depth_luma_minus8
    bit_depth_chroma_minus8 := s.sps.chroma_info.bit_depth_chroma_minus8
    log2_max_frame_num_minus4 := s.sps.log2_max_frame_num_minus4
    pic_order_cnt_type := poc.1
    offset_for_non_ref_pic := poc.2.1
    offset_for_top_to_bottom_field := poc.2.2.1
    log2_max_pic_order_cnt_lsb_minus4 := poc.2.2.2.1
    num_ref_frames_in_pic_order_cnt_cycle :=
      (match poc.2.2.2.2.1 with
       | none => 0
       | some p => u8cast p.length)
    max_num_ref_frames := u8cast s.sps.max_num_ref_frames
    reserved1 := 0
    pic_width_in_mbs_minus1 := s.sps.pic_width_in_mbs_minus1
    pic_height_in_map_units_minus1 := s.sps.pic_height_in_map_units_minus1
    frame_crop_left_offset := fc.1
    frame_crop_right_offset := fc.2.1
    frame_crop_top_offset := fc.2.2.1
    frame_crop_bottom_offset := fc.2.2.2
    reserved2 := 0
    pOffsetForRefFrame := poc.2.2.2.2.1
    pScalingLists := s.p_scaling_lists
    pSequenceParameterSetVui := s.p_sequence_parameter_set_vui }

/-- StdVideoH264PpsFlags bit-field as one Bool per set accessor. -/
structure StdVideoH264PpsFlags where
  transform_8x8_mode_flag : Bool
  redundant_pic_cnt_present_flag : Bool
  constrained_intra_pred_flag : Bool
  deblocking_filter_control_present_flag : Bool
  weighted_pred_flag : Bool
  bottom_field_pic_order_in_frame_present_flag : Bool
  entropy_coding_mode_flag : Bool
  pic_scaling_matrix_present_flag : Bool
deriving DecidableEq

/-- All-zero default of the PPS flags bit-field. -/
def StdVideoH264PpsFlags.default : StdVideoH264PpsFlags :=
  ⟨false, false, false, false, false, false, false, false⟩

/-- StdVideoH264PictureParameterSet. -/
structure StdVideoH264PictureParameterSet where
  flags : StdVideoH264PpsFlags
  seq_parameter_set_id : Nat
  pic_parameter_set_id : Nat
  num_ref_idx_l0_default_active_minus1 : Nat
  num_ref_idx_l1_default_active_minus1 : Nat
  weighted_bipred_idc : Nat
  pic_init_qp_minus26 : Int
  pic_init_qs_minus26 : Int
  chroma_qp_index_offset : Int
  second_chroma_qp_index_offset : Int
  pScalingLists : Option StdVideoH264ScalingLists
deriving DecidableEq

/-- Struct PpsInfo1 of parameters.rs (level-1 PPS record: optional scaling lists). -/
structure PpsInfo1 where
  pps : PicParameterSet
  p_scaling_lists : Option StdVideoH264ScalingLists
deriving DecidableEq

/-- PpsInfo1::new: the PPS extension's optional scaling matrix, with a missing
8x8 vector replaced by the empty slice. -/
def PpsInfo1.new (pps : PicParameterSet) : Option PpsInfo1 :=
  match pps.extension.bind (fun ex => ex.pic_scaling_matrix) with
  | none => some { pps := pps, p_scaling_lists := none }
  | some m =>
    match scaling_list m.scaling_list4x4
        (match m.scaling_list8x8 with
         | none => []
         | some l => l) with
    | none => none
    | some sl => some { pps := pps, p_scaling_lists := some sl }

/-- PpsInfo1::step2: assemble the native picture-parameter-set record. -/
def PpsInfo1.step2 (s : PpsInfo1) : StdVideoH264PictureParameterSet :=
  let pps_flags := StdVideoH264PpsFlags.default
  let pps_flags :=
    match s.pps.extension with
    | none => pps_flags
    | some ex => { pps_flags with transform_8x8_mode_flag := ex.transform_8x8_mode_flag }
  let pps_flags := { pps_flags with
    redundant_pic_cnt_present_flag := s.pps.redundant_pic_cnt_present_flag }
  let pps_flags := { pps_flags with
    constrained_intra_pred_flag := s.pps.constrained_intra_pred_flag }
  let pps_flags := { pps_flags with
    deblocking_filter_control_present_flag := s.pps.deblocking_filter_control_present_flag }
  let pps_flags := { pps_flags with weighted_pred_flag := s.pps.weighted_pred_flag }
  let pps_flags := { pps_flags with
    bottom_field_pic_order_in_frame_present_flag :=
      s.pps.bottom_field_pic_order_in_frame_present_flag }
  let pps_flags := { pps_flags with
    entropy_coding_mode_flag := s.pps.entropy_coding_mode_flag }
  let pps_flags := { pps_flags with
    pic_scaling_matrix_present_flag := s.p_scaling_lists.isSome }
  { flags := pps_flags
    seq_parameter_set_id := s.pps.seq_parameter_set_id
    pic_parameter_set_id := s.pps.pic_parameter_set_id
    num_ref_idx_l0_default_active_minus1 := u8cast s.pps.num_ref_idx_l0_default_active_minus1
    num_ref_idx_l1_default_active_minus1 := u8cast s.pps.num_ref_idx_l1_default_active_minus1
    weighted_bipred_idc := s.pps.weighted_bipred_idc
    pic_init_qp_minus26 := i8cast s.pps.pic_init_qp_minus26
    pic_init_qs_minus26 := i8cast s.pps.pic_init_qs_minus26
    chroma_qp_index_offset := i8cast s.pps.chroma_qp_index_offset
    second_chroma_qp_index_offset :=
      (match s.pps.extension with
       | none => 0
       | some ex => i8cast ex.second_chroma_qp_index_offset)
    pScalingLists := s.p_scaling_lists }

/-- VideoDecodeH264SessionParametersAddInfoKHR: the slices of built native
SPS and PPS records. -/
structure VideoDecodeH264SessionParametersAddInfoKHR where
  std_sp_ss : List StdVideoH264SequenceParameterSet
  std_pp_ss : List StdVideoH264PictureParameterSet
deriving DecidableEq

/-- VideoDecodeH264SessionParametersCreateInfoKHR. -/
structure VideoDecodeH264SessionParametersCreateInfoKHR where
  max_std_sps_count : Nat
  max_std_pps_count : Nat
  parameters_add_info : VideoDecodeH264SessionParametersAddInfoKHR
deriving DecidableEq

/-- Rust `.map(...).collect::<Vec>()` over fallible per-element builders:
a panic (none) in any element aborts the whole collection. -/
def mapOpt (f : α → Option β) : List α → Option (List β)
  | [] => some []
  | a :: rest =>
    match f a, mapOpt f rest with
    | some b, some bs => some (b :: bs)
    | _, _ => none

/-- Context::sps() iteration over the stored sequence parameter sets. -/
def Context.sps (ctx : Context) : List SeqParameterSet := ctx.sps_entries

/-- Context::pps() iteration over the stored picture parameter sets. -/
def Context.pps (ctx : Context) : List PicParameterSet := ctx.pps_entries

/-- The staged construction of H264StreamInspector::run_with_create_info up to
the assembled create-info: sps structs are nested three deep (sps1, sps2,
sps3 vectors collected in that order), pps structs two deep (pps1, pps2),
then the add-info takes the sps3 and pps2 slices and the create-info takes
max counts 32 and 256 and the add-info. -/
def H264StreamInspector.createInfo (insp : H264StreamInspector) :
    Option VideoDecodeH264SessionParametersCreateInfoKHR :=
  match mapOpt SpsInfo1.new insp.h264_context.sps with
  | none => none
  | some sps1 =>
    match mapOpt SpsInfo1.step2 sps1 with
    | none => none
    | some sps2 =>
      let sps3 := sps2.map SpsInfo2.step3
      match mapOpt PpsInfo1.new insp.h264_context.pps with
      | none => none
      | some pps1 =>
        let pps2 := pps1.map PpsInfo1.step2
        some
          { max_std_sps_count := 32
            max_std_pps_count := 256
            parameters_add_info := { std_sp_ss := sps3, std_pp_ss := pps2 } }

/-- H264StreamInspector::run_with_create_info: build the staged create-info
and pass it to the caller-supplied continuation, returning its result
(none when a builder stage panics). -/
def H264StreamInspector.run_with_create_info (insp : H264StreamInspector)
    (f : VideoDecodeH264SessionParametersCreateInfoKHR → T) : Option T :=
  insp.createInfo.map f

/-- One record-construction event of the builder, tagged with the index of
its parameter set within the context. -/
inductive BuildEv where
  | sps1 (i : Nat)
  | sps2 (i : Nat)
  | sps3 (i : Nat)
  | pps1 (i : Nat)
  | pps2 (i : Nat)
deriving DecidableEq

/-- Construction stage of a build event (nesting level, breadth-first order). -/
def BuildEv.stage : BuildEv → Nat
  | .sps1 _ => 0
  | .sps2 _ => 1
  | .sps3 _ => 2
  | .pps1 _ => 3
  | .pps2 _ => 4

/-- Record-construction order of run_with_create_info: each
`let ... : Vec<_> = ....collect()` line completes every per-element builder
invocation of its stage before the next line begins, so the trace is the
concatenation of the five stages. -/
def buildTrace (insp : H264StreamInspector) : List BuildEv :=
  let nS := insp.h264_context.sps.length
  let nP := insp.h264_context.pps.length
  (List.range nS).map BuildEv.sps1 ++ (List.range nS).map BuildEv.sps2 ++
    (List.range nS).map BuildEv.sps3 ++ (List.range nP).map BuildEv.pps1 ++
    (List.range nP).map BuildEv.pps2

/-! ## Command submission protocol, from src/src/queue.rs

QueueShared::build_and_submit is a straight line of fallible driver calls
joined by the ? operator.  The driver is modelled as an oracle mapping each
call to an optional error; the caller's closure f is modelled as n operation
callbacks invoked in the caller-specified order, each fallible (the closure
runs its operations sequentially with ?, as the repository's decode test
does).  destroy_fence has no Result in ash and cannot fail. -/

/-- Driver calls (and operation callbacks) issued by build_and_submit. -/
inductive DriverCall where
  | createFence
  | resetCommandBuffer
  | beginCommandBuffer
  | operation (i : Nat)
  | endCommandBuffer
  | queueSubmit
  | waitForFences (waitAll : Bool) (timeout : Nat)
  | destroyFence
  | queueWaitIdle
deriving DecidableEq

/-- Whether the call returns a Result in ash (destroy_fence does not). -/
def DriverCall.fallible : DriverCall → Bool
  | .destroyFence => false
  | _ => true

/-- Constant u64::MAX, the timeout passed to wait_for_fences. -/
def U64MAX : Nat := 2 ^ 64 - 1

/-- The straight-line call sequence of QueueShared::build_and_submit with n
operation callbacks, in source order: create_fence, reset_command_buffer,
begin_command_buffer, the caller's operations, end_command_buffer,
queue_submit, wait_for_fences (wait-all, timeout u64::MAX), destroy_fence,
queue_wait_idle. -/
def protocolCalls (n : Nat) : List DriverCall :=
  [DriverCall.createFence, DriverCall.resetCommandBuffer, DriverCall.beginCommandBuffer] ++
    (List.range n).map DriverCall.operation ++
    [DriverCall.endCommandBuffer, DriverCall.queueSubmit,
      DriverCall.waitForFences true U64MAX, DriverCall.destroyFence, DriverCall.queueWaitIdle]

/-- Run a call sequence against the driver oracle with ?-propagation: the
first failing fallible call ends the run, returning its error verbatim; the
trace records the calls actually issued. -/
def runCalls (beh : DriverCall → Option E) : List DriverCall → List DriverCall × Except E Unit
  | [] => ([], .ok ())
  | c :: rest =>
    if c.fallible then
      match beh c with
      | some e => ([c], .error e)
      | none =>
        let r := runCalls beh rest
        (c :: r.1, r.2)
    else
      let r := runCalls beh rest
      (c :: r.1, r.2)

/-- QueueShared::build_and_submit: issue the protocol calls in order against
the driver oracle, aborting at the first failure. -/
def build_and_submit (beh : DriverCall → Option E) (n : Nat) :
    List DriverCall × Except E Unit :=
  runCalls beh (protocolCalls n)

/-- Modelled from the spec's words for claim C6 only: the claimed driver-call
sequence of a successful submission, beginning with the command-buffer
reset and with the fence freshly created at submission. -/
def claimedCallsC6 (n : Nat) : List DriverCall :=
  [DriverCall.resetCommandBuffer, DriverCall.beginCommandBuffer] ++
    (List.range n).map DriverCall.operation ++
    [DriverCall.endCommandBuffer, DriverCall.queueSubmit,
      DriverCall.waitForFences true U64MAX, DriverCall.destroyFence, DriverCall.queueWaitIdle]

/-! ## Image binding, from src/src/resources/image.rs

ImageShared holds shared_allocation: RefCell<Option<Arc<AllocationShared>>>;
allocations are identified by an id.  ImageShared::bind first checks the
RefCell: when already occupied it returns Err(ImageAlreadyBound) without
calling the driver; otherwise it calls bind_image_memory (whose outcome the
driver oracle decides) and only on success stores the allocation. -/

/-- Outcome of ImageShared::bind (the repository's error kinds at this call). -/
inductive BindOutcome (E : Type) where
  | ok
  | imageAlreadyBound
  | driver (e : E)
deriving DecidableEq

/-- The allocation cell of ImageShared. -/
structure ImageSharedSt where
  shared_allocation : Option Nat
deriving DecidableEq

/-- ImageShared::new / new_video_target leave shared_allocation as
RefCell::new(None): a fresh image is unbound. -/
def ImageShared.newState : ImageSharedSt := { shared_allocation := none }

/-- ImageShared::bind; the returned Bool records whether the driver's
bind_image_memory call was issued. -/
def ImageShared.bind (st : ImageSharedSt) (alloc : Nat) (driverBind : Option E) :
    BindOutcome E × ImageSharedSt × Bool :=
  if st.shared_allocation.isSome then (.imageAlreadyBound, st, false)
  else
    match driverBind with
    | some e => (.driver e, st, true)
    | none => (.ok, { shared_allocation := some alloc }, true)

/-! ## Resource ownership graph, from src/src/device.rs, src/src/allocation.rs
and src/src/resources/buffer.rs

Arc shared ownership is modelled by reference counts: dropping a handle
decrements the count of the shared node, and the node's Drop implementation
runs exactly when the count reaches zero.  The edges come from the source
structures: BufferShared holds Arc<DeviceShared> and Arc<AllocationShared>;
AllocationShared holds Arc<DeviceShared>; DeviceShared::drop calls
destroy_device, AllocationShared::drop calls free_memory, BufferShared::drop
calls destroy_buffer.  (AllocationShared's Arc<InstanceShared> is outside
this claim and not modelled.) -/

/-- Driver teardown calls issued by the Drop implementations. -/
inductive TeardownEv where
  | destroyBuffer
  | freeMemory
  | destroyDevice
deriving DecidableEq

/-- Reference counts of the three shared nodes plus the teardown calls
issued so far, in order. -/
structure RGState where
  deviceRC : Nat
  allocRC : Nat
  bufferRC : Nat
  events : List TeardownEv
deriving DecidableEq

/-- Drop one Arc<DeviceShared>: DeviceShared::drop (destroy_device) runs only
when the last reference is released. -/
def releaseDevice (s : RGState) : RGState :=
  if s.deviceRC = 1 then { s with deviceRC := 0, events := s.events ++ [TeardownEv.destroyDevice] }
  else { s with deviceRC := s.deviceRC - 1 }

/-- Drop one Arc<AllocationShared>: on the last reference AllocationShared's
Drop frees the memory and then its Arc<DeviceShared> field is released. -/
def releaseAllocation (s : RGState) : RGState :=
  if s.allocRC = 1 then
    releaseDevice { s with allocRC := 0, events := s.events ++ [TeardownEv.freeMemory] }
  else { s with allocRC := s.allocRC - 1 }

/-- Drop one Arc<BufferShared>: on the last reference BufferShared's Drop
destroys the buffer and then its fields are released in declaration order
(shared_device, then shared_allocation). -/
def releaseBuffer (s : RGState) : RGState :=
  if s.bufferRC = 1 then
    releaseAllocation
      (releaseDevice { s with bufferRC := 0, events := s.events ++ [TeardownEv.destroyBuffer] })
  else { s with bufferRC := s.bufferRC - 1 }

/-- Device::new: the Device handle holds the only Arc<DeviceShared>. -/
def createDevice : RGState :=
  { deviceRC := 1, allocRC := 0, bufferRC := 0, events := [] }

/-- Allocation::new(&device, ..): the Allocation handle holds the only
Arc<AllocationShared>, whose shared_device field clones the device Arc. -/
def createAllocation (s : RGState) : RGState :=
  { s with allocRC := 1, deviceRC := s.deviceRC + 1 }

/-- Buffer::new(&allocation, ..): BufferShared stores
shared_device = allocation.device() (a fresh device Arc clone) and
shared_allocation = a fresh allocation Arc clone. -/
def createBuffer (s : RGState) : RGState :=
  { s with bufferRC := 1, deviceRC := s.deviceRC + 1, allocRC := s.allocRC + 1 }

/-- Whether a scaling list is the NotPresent variant. -/
def ScalingList.isNotPresent : ScalingList → Bool
  | .NotPresent => true
  | _ => false

/-- Whether a scaling list is the UseDefault variant. -/
def ScalingList.isUseDefault : ScalingList → Bool
  | .UseDefault => true
  | _ => false

/-- Characterization helper: the mask contributed by the entries of a list
selected by a predicate, with one bit at position index + shift per selected
entry (index counting from i). -/
def selMask (p : ScalingList → Bool) (shift : Nat) : Nat → List ScalingList → Nat
  | _, [] => 0
  | i, s :: rest => (if p s then 1 <<< (i + shift) else 0) ||| selMask p shift (i + 1) rest

/-! ## Sample records for concrete evaluations -/

/-- Sample 4x4 scaling-list inputs: one NotPresent entry, one explicit list. -/
def scalingSample4 : List ScalingList :=
  [ScalingList.NotPresent, ScalingList.List (List.replicate 16 7)]

/-- Sample 8x8 scaling-list inputs: one UseDefault entry. -/
def scalingSample8 : List ScalingList := [ScalingList.UseDefault]

/-- The native scaling-list structure built from the samples. -/
def scalingSampleResult : StdVideoH264ScalingLists :=
  { scaling_list_present_mask := 1
    use_default_scaling_matrix_mask := 64
    ScalingList4x4 := (List.replicate 6 (List.replicate 16 0)).set 1 (List.replicate 16 7)
    ScalingList8x8 := List.replicate 6 (List.replicate 64 0) }

/-- A minimal well-formed sequence parameter set with the given id
(no VUI, no scaling matrix). -/
def spsSample (id : Nat) : SeqParameterSet :=
  { profile_idc := 100
    constraint_flags := ⟨false, false, false, false, false, false⟩
    level_idc := 31
    seq_parameter_set_id := id
    chroma_info :=
      { chroma_format := 1
        separate_colour_plane_flag := false
        bit_depth_luma_minus8 := 0
        bit_depth_chroma_minus8 := 0
        qpprime_y_zero_transform_bypass_flag := false
        scaling_matrix := none }
    log2_max_frame_num_minus4 := 0
    pic_order_cnt := PicOrderCntType.TypeTwo
    max_num_ref_frames := 1
    gaps_in_frame_num_value_allowed_flag := false
    pic_width_in_mbs_minus1 := 31
    pic_height_in_map_units_minus1 := 31
    frame_mbs_flags := FrameMbsFlags.Frames
    direct_8x8_inference_flag := true
    frame_cropping := none
    vui_parameters := none }

/-- A minimal well-formed picture parameter set with the given own id and
referenced sequence-parameter-set id (no extension). -/
def ppsSample (pid sid : Nat) : PicParameterSet :=
  { pic_parameter_set_id := pid
    seq_parameter_set_id := sid
    entropy_coding_mode_flag := true
    bottom_field_pic_order_in_frame_present_flag := false
    num_ref_idx_l0_default_active_minus1 := 0
    num_ref_idx_l1_default_active_minus1 := 0
    weighted_pred_flag := false
    weighted_bipred_idc := 0
    pic_init_qp_minus26 := -6
    pic_init_qs_minus26 := 0
    chroma_qp_index_offset := 0
    deblocking_filter_control_present_flag := true
    constrained_intra_pred_flag := false
    redundant_pic_cnt_present_flag := false
    extension := none }

/-- An inspector whose context holds one SPS (id 0) and one PPS (id 0). -/
def inspSample : H264StreamInspector :=
  { h264_context := { sps_entries := [spsSample 0], pps_entries := [ppsSample 0 0] } }

/-! ## Theorems -/

/-- Claim C1: the spec says a PPS NAL fed with its referenced SPS already in
the context is parsed and the resulting record inserted into the context
keyed by its id, findable by a later lookup.  The code evaluated at exactly
that input parses the PPS successfully but binds it to the discarded
variable _pps and never stores it: the later lookup of its id finds
nothing.  (feed_nal puts sequence parameter sets only.) -/
theorem feed_nal_pps_discarded :
    (do
      let i1 ← H264StreamInspector.new.feed_nal (NalUnit.seqParameterSet (some (spsSample 0)))
      let i2 ← i1.feed_nal (NalUnit.picParameterSet (some (ppsSample 1 0)))
      pure (i2.h264_context.sps_by_id 0, i2.h264_context.pps_by_id 1)) =
      some (some (spsSample 0), none) := by
  decide

/-- Claim C2: the spec says a PPS whose referenced SPS is absent fails with a
distinct missing-reference error result, not a panic.  At that input the
bit-level parse does produce the distinct missing-reference error kind, but
feed_nal unwraps it and panics (modelled as none) instead of returning an
error result; feeding the SPS first and then the same PPS goes through
without panicking. -/
theorem feed_nal_missing_sps_unwrap :
    PicParameterSet.from_bits H264StreamInspector.new.h264_context (some (ppsSample 1 0)) =
      Except.error (PpsError.badSeqParamSetId 0) ∧
    H264StreamInspector.new.feed_nal (NalUnit.picParameterSet (some (ppsSample 1 0))) = none ∧
    (do
      let i1 ← H264StreamInspector.new.feed_nal (NalUnit.seqParameterSet (some (spsSample 0)))
      i1.feed_nal (NalUnit.picParameterSet (some (ppsSample 1 0)))).isSome = true := by
  refine ⟨rfl, by decide, by decide⟩

/-- Claim C5: an image is created unbound; a successful first bind stores the
allocation and issues the driver call; any second bind call fails with the
image-already-bound error kind, issues no driver call, and leaves the stored
allocation unchanged. -/
theorem image_bind_once (E : Type) (a1 a2 : Nat) (d2 : Option E) (st1 : ImageSharedSt)
    (hfirst : ImageShared.bind ImageShared.newState a1 (none : Option E) =
      (BindOutcome.ok, st1, true)) :
    ImageShared.newState.shared_allocation = none ∧
    st1.shared_allocation = some a1 ∧
    ImageShared.bind st1 a2 d2 = (BindOutcome.imageAlreadyBound, st1, false) := by
  have h0 : ImageShared.bind ImageShared.newState a1 (none : Option E) =
      (BindOutcome.ok, ⟨some a1⟩, true) := rfl
  have hst : st1 = ⟨some a1⟩ := by
    have := h0.symm.trans hfirst
    exact (congrArg (fun p => p.2.1) this).symm
  subst hst
  refine ⟨rfl, rfl, ?_⟩
  simp [ImageShared.bind]

/-- Witness for image_bind_once at a concrete first allocation. -/
theorem image_bind_once_witness :
    ImageShared.newState.shared_allocation = none ∧
    (⟨some 5⟩ : ImageSharedSt).shared_allocation = some 5 ∧
    ImageShared.bind (⟨some 5⟩ : ImageSharedSt) 7 (none : Option Nat) =
      (BindOutcome.imageAlreadyBound, ⟨some 5⟩, false) :=
  image_bind_once Nat 5 7 none ⟨some 5⟩ rfl

/-- Claim C8: with a Device, an Allocation created from it and a Buffer
created from the Allocation, releasing the Device handle (and then the
Allocation handle) issues no driver destroy_device call and leaves live
references to the DeviceShared node; only releasing the Buffer cascades,
and destroy_device runs last, after the buffer teardown. -/
theorem device_outlives_buffer :
    (releaseDevice (createBuffer (createAllocation createDevice))).events = [] ∧
    (releaseDevice (createBuffer (createAllocation createDevice))).deviceRC = 2 ∧
    (releaseAllocation (releaseDevice (createBuffer (createAllocation createDevice)))).events =
      [] ∧
    (releaseBuffer (releaseAllocation (releaseDevice
        (createBuffer (createAllocation createDevice))))).events =
      [TeardownEv.destroyBuffer, TeardownEv.freeMemory, TeardownEv.destroyDevice] ∧
    (releaseBuffer (releaseAllocation (releaseDevice
        (createBuffer (createAllocation createDevice))))).deviceRC = 0 := by
  decide

/-- When the driver oracle never fails, a call sequence runs to completion in
order and succeeds. -/
theorem runCalls_all_ok {E : Type} (beh : DriverCall → Option E) (h : ∀ c, beh c = none) :
    ∀ L, runCalls beh L = (L, Except.ok ()) := by
  intro L
  induction L with
  | nil => rfl
  | cons c rest ih =>
    unfold runCalls
    by_cases hc : c.fallible
    · simp [hc, h c, ih]
    · simp [hc, ih]

/-- A failing run issues exactly the protocol steps up to and including the
first failing call, whose oracle error is returned verbatim. -/
theorem runCalls_error {E : Type} (beh : DriverCall → Option E) :
    ∀ (L t : List DriverCall) (e : E),
      runCalls beh L = (t, Except.error e) →
      ∃ k c, L[k]? = some c ∧ beh c = some e ∧ t = L.take (k + 1) := by
  intro L
  induction L with
  | nil =>
    intro t e h
    exact absurd h (by simp [runCalls])
  | cons c rest ih =>
    intro t e h
    unfold runCalls at h
    by_cases hc : c.fallible
    · rw [if_pos hc] at h
      cases hbeh : beh c with
      | some e' =>
        rw [hbeh] at h
        have ht := congrArg Prod.fst h
        have he := congrArg Prod.snd h
        simp only at ht he
        refine ⟨0, c, by simp, ?_, ?_⟩
        · rw [hbeh]
          cases he
          rfl
        · rw [← ht]
          rfl
      | none =>
        rw [hbeh] at h
        have ht := congrArg Prod.fst h
        have he := congrArg Prod.snd h
        simp only at ht he
        obtain ⟨k, c', h1, h2, h3⟩ := ih (runCalls beh rest).1 e (by rw [← he])
        refine ⟨k + 1, c', by simpa using h1, h2, ?_⟩
        rw [← ht, List.take_succ_cons, h3]
    · rw [if_neg hc] at h
      have ht := congrArg Prod.fst h
      have he := congrArg Prod.snd h
      simp only at ht he
      obtain ⟨k, c', h1, h2, h3⟩ := ih (runCalls beh rest).1 e (by rw [← he])
      refine ⟨k + 1, c', by simpa using h1, h2, ?_⟩
      rw [← ht, List.take_succ_cons, h3]

/-- Claim C6 counterexample: the first driver call of a successful
build_and_submit is create_fence, not the command-buffer reset the claimed
sequence starts with, so the issued call trace differs from the claimed
one. -/
theorem build_and_submit_first_call_is_create_fence :
    (build_and_submit (fun _ => (none : Option Unit)) 0).1.head? =
      some DriverCall.createFence ∧
    (claimedCallsC6 0).head? = some DriverCall.resetCommandBuffer ∧
    (build_and_submit (fun _ => (none : Option Unit)) 0).1 ≠ claimedCallsC6 0 := by
  refine ⟨rfl, rfl, ?_⟩
  decide

/-- Claim C6 (amended): a successful build_and_submit performs exactly, in
order: fence creation (first, before the reset), command-buffer reset, begin
recording, the caller's operation callbacks in caller-specified order, end
recording, submission, an unbounded fence wait (wait-all with timeout
u64::MAX), fence destruction, and the queue-idle wait, which is the last
call before Ok is returned. -/
theorem build_and_submit_sequence {E : Type} (beh : DriverCall → Option E) (n : Nat)
    (h : ∀ c, beh c = none) :
    build_and_submit beh n = (protocolCalls n, Except.ok ()) ∧
    (protocolCalls n).getLast? = some DriverCall.queueWaitIdle ∧
    DriverCall.waitForFences true U64MAX ∈ protocolCalls n := by
  refine ⟨runCalls_all_ok beh h _, ?_, ?_⟩
  · simp [protocolCalls, List.getLast?_eq_head?_reverse]
  · simp [protocolCalls]

/-- Witness for build_and_submit_sequence with two operations and an
always-succeeding driver. -/
theorem build_and_submit_sequence_witness :
    build_and_submit (fun _ => (none : Option Unit)) 2 =
      (protocolCalls 2, Except.ok ()) ∧
    (protocolCalls 2).getLast? = some DriverCall.queueWaitIdle ∧
    DriverCall.waitForFences true U64MAX ∈ protocolCalls 2 :=
  build_and_submit_sequence (fun _ => none) 2 (fun _ => rfl)

/-- Claim C7: when a driver call or operation callback fails, build_and_submit
returns that error verbatim and the issued trace is exactly the protocol
steps up to and including the failing call (nothing afterwards, no
roll-back of the partial recording); the protocol sequence of any use puts
the command-buffer reset at position 1, before every recording call, so the
buffer is reset at the start of the next use. -/
theorem build_and_submit_error_aborts {E : Type} (beh : DriverCall → Option E) (n : Nat)
    (e : E) (h : (build_and_submit beh n).2 = Except.error e) :
    (∃ k c, (protocolCalls n)[k]? = some c ∧ beh c = some e ∧
      (build_and_submit beh n).1 = (protocolCalls n).take (k + 1)) ∧
    (protocolCalls n)[1]? = some DriverCall.resetCommandBuffer ∧
    ∀ i j, (protocolCalls n)[i]? = some (DriverCall.operation j) → 1 < i := by
  refine ⟨?_, rfl, ?_⟩
  · apply runCalls_error beh (protocolCalls n) _ e
    rw [← h]
    exact Prod.mk.eta.symm
  · intro i j hop
    rcases i with _ | _ | _ | i
    · simp [protocolCalls] at hop
    · simp [protocolCalls] at hop
    · simp [protocolCalls] at hop
    · omega

/-- Witness for build_and_submit_error_aborts: a driver failing at
queue_submit with error code 7, one operation callback. -/
theorem build_and_submit_error_aborts_witness :
    (∃ k c, (protocolCalls 1)[k]? = some c ∧
      (fun c => if c = DriverCall.queueSubmit then some 7 else none) c = some 7 ∧
      (build_and_submit (fun c => if c = DriverCall.queueSubmit then some 7 else none) 1).1 =
        (protocolCalls 1).take (k + 1)) ∧
    (protocolCalls 1)[1]? = some DriverCall.resetCommandBuffer ∧
    (∀ i j, (protocolCalls 1)[i]? = some (DriverCall.operation j) → 1 < i) :=
  build_and_submit_error_aborts (fun c => if c = DriverCall.queueSubmit then some 7 else none)
    1 7 (by rfl)

/-- SpsInfo1::new keeps the borrowed sequence parameter set. -/
theorem spsInfo1_new_sps (sps : SeqParameterSet) (i1 : SpsInfo1)
    (h : SpsInfo1.new sps = some i1) : i1.sps = sps := by
  simp only [SpsInfo1.new] at h
  split at h
  · cases h; rfl
  · split at h
    · cases h
    · cases h; rfl

/-- SpsInfo1::step2 keeps the parameter set, builds the scaling-list record
exactly when a scaling matrix was parsed, and builds the VUI record (borrowing
the level-1 HRD record) exactly from the parsed VUI. -/
theorem spsInfo1_step2_fields (i1 : SpsInfo1) (i2 : SpsInfo2)
    (h : SpsInfo1.step2 i1 = some i2) :
    i2.sps = i1.sps ∧
    i2.p_scaling_lists.isSome = i1.sps.chroma_info.scaling_matrix.isSome ∧
    i2.p_sequence_parameter_set_vui = i1.sps.vui_parameters.map (buildVui i1.p_hrd_parameters) := by
  simp only [SpsInfo1.step2] at h
  split at h
  · cases h
  · rename_i psl hps
    cases h
    refine ⟨rfl, ?_, rfl⟩
    split at hps
    · cases hps; rename_i hm; rw [hm]; rfl
    · rename_i m hm
      rcases hsl : scaling_list m.scaling_list4x4 m.scaling_list8x8 with _ | sl
      · rw [hsl] at hps; cases hps
      · rw [hsl] at hps; cases hps; rw [hm]; rfl

/-- Claim C4: in the native sequence-parameter-set record built by the
builder, the frame_mbs_only bit is set exactly when the parsed frame-mbs
flags are the Frames variant, the direct_8x8_inference bit equals the
parsed flag, the vui_parameters_present bit is set exactly when the parsed
SPS carries VUI parameters, and the seq_scaling_matrix_present bit is set
exactly when a scaling matrix was parsed. -/
theorem sps_flag_bit_sources (sps : SeqParameterSet) (i1 : SpsInfo1) (i2 : SpsInfo2)
    (h1 : SpsInfo1.new sps = some i1) (h2 : SpsInfo1.step2 i1 = some i2) :
    (i2.step3.flags.frame_mbs_only_flag = true ↔ sps.frame_mbs_flags = FrameMbsFlags.Frames) ∧
    i2.step3.flags.direct_8x8_inference_flag = sps.direct_8x8_inference_flag ∧
    i2.step3.flags.vui_parameters_present_flag = sps.vui_parameters.isSome ∧
    i2.step3.flags.seq_scaling_matrix_present_flag = sps.chroma_info.scaling_matrix.isSome := by
  obtain ⟨hs2, hsl, hvui⟩ := spsInfo1_step2_fields i1 i2 h2
  have hs1 : i1.sps = sps := spsInfo1_new_sps sps i1 h1
  rw [hs1] at hs2 hsl hvui
  rcases hmbs : sps.frame_mbs_flags with _ | mb <;>
    rcases hpoc : sps.pic_order_cnt with l | ⟨dz, onr, ottb, offs⟩ | _ <;>
      simp [SpsInfo2.step3, StdVideoH264SpsFlags.default, hs2, hmbs, hpoc, hsl, hvui,
        Option.isSome_map]

/-- Witness for sps_flag_bit_sources at the minimal sample SPS. -/
theorem sps_flag_bit_sources_witness :
    ((SpsInfo2.step3 ⟨spsSample 0, none, none⟩).flags.frame_mbs_only_flag = true ↔
      (spsSample 0).frame_mbs_flags = FrameMbsFlags.Frames) ∧
    (SpsInfo2.step3 ⟨spsSample 0, none, none⟩).flags.direct_8x8_inference_flag =
      (spsSample 0).direct_8x8_inference_flag ∧
    (SpsInfo2.step3 ⟨spsSample 0, none, none⟩).flags.vui_parameters_present_flag =
      (spsSample 0).vui_parameters.isSome ∧
    (SpsInfo2.step3 ⟨spsSample 0, none, none⟩).flags.seq_scaling_matrix_present_flag =
      (spsSample 0).chroma_info.scaling_matrix.isSome :=
  sps_flag_bit_sources (spsSample 0) ⟨spsSample 0, none⟩ ⟨spsSample 0, none, none⟩
    (by rfl) (by rfl)

/-- A fallible element-wise collection preserves the element count. -/
theorem mapOpt_length (f : α → Option β) :
    ∀ (l : List α) (l' : List β), mapOpt f l = some l' → l'.length = l.length := by
  intro l
  induction l with
  | nil =>
    intro l' h
    cases h
    rfl
  | cons a rest ih =>
    intro l' h
    unfold mapOpt at h
    rcases hfa : f a with _ | b <;> rw [hfa] at h
    · cases h
    · rcases hrest : mapOpt f rest with _ | bs <;> rw [hrest] at h
      · cases h
      · cases h
        simp [ih bs hrest]

/-- A list whose pairwise relation is trivially true. -/
theorem pairwise_trivial {α : Type} (l : List α) : l.Pairwise (fun _ _ => True) := by
  induction l <;> simp [*]

/-- The build trace is monotone in construction stage: the five collection
lines run in order, so stages never decrease along the trace. -/
theorem buildTrace_stage_mono (insp : H264StreamInspector) :
    (buildTrace insp).Pairwise (fun a b => a.stage ≤ b.stage) := by
  unfold buildTrace
  simp [List.pairwise_append, List.pairwise_map, List.mem_map, List.mem_range,
    BuildEv.stage, pairwise_trivial]
  refine ⟨?_, ?_⟩
  · rintro a _ b (⟨c, _, rfl⟩ | ⟨c, _, rfl⟩) <;> simp [BuildEv.stage]
  · rintro a _ b (⟨c, _, rfl⟩ | ⟨c, _, rfl⟩ | ⟨c, _, rfl⟩) <;> simp [BuildEv.stage]

/-- Claim C3: the builder is breadth-first per nesting level (every event of
a lower stage occurs strictly before every event of a higher stage: all
level-1 SPS records before any level-2, all level-2 before any level-3
record, and all level-1 PPS records before any level-2 PPS record); the
assembled create-info holds one native record per SPS and per PPS in the
context and is passed to the caller-supplied continuation, whose result is
returned. -/
theorem run_with_create_info_stages (insp : H264StreamInspector) (T : Type)
    (f : VideoDecodeH264SessionParametersCreateInfoKHR → T) :
    (∀ (i j : Nat) (e e' : BuildEv), (buildTrace insp)[i]? = some e →
      (buildTrace insp)[j]? = some e' → e.stage < e'.stage → i < j) ∧
    insp.run_with_create_info f = insp.createInfo.map f ∧
    ∀ ci, insp.createInfo = some ci →
      ci.parameters_add_info.std_sp_ss.length = insp.h264_context.sps.length ∧
      ci.parameters_add_info.std_pp_ss.length = insp.h264_context.pps.length := by
  refine ⟨?_, rfl, ?_⟩
  · intro i j e e' hi hj hlt
    by_contra hij
    push_neg at hij
    have hilen : i < (buildTrace insp).length := (List.getElem?_eq_some.mp hi).1
    have hjlen : j < (buildTrace insp).length := (List.getElem?_eq_some.mp hj).1
    have hie : (buildTrace insp)[i] = e := (List.getElem?_eq_some.mp hi).2
    have hje : (buildTrace insp)[j] = e' := (List.getElem?_eq_some.mp hj).2
    rcases Nat.lt_or_ge j i with hji | hji
    · have := (List.pairwise_iff_getElem.mp (buildTrace_stage_mono insp)) j i hjlen hilen hji
      rw [hie, hje] at this
      omega
    · have : i = j := by omega
      subst this
      rw [hie] at hje
      subst hje
      omega
  · intro ci hci
    unfold H264StreamInspector.createInfo at hci
    split at hci
    · cases hci
    · rename_i sps1 hsps1
      split at hci
      · cases hci
      · rename_i sps2 hsps2
        split at hci
        · cases hci
        · rename_i pps1 hpps1
          cases hci
          constructor
          · simp [mapOpt_length _ _ _ hsps2, mapOpt_length _ _ _ hsps1]
          · simp [mapOpt_length _ _ _ hpps1]

/-- Witness for run_with_create_info_stages at the sample context with one
SPS and one PPS and a concrete continuation. -/
theorem run_with_create_info_stages_witness :
    (∀ (i j : Nat) (e e' : BuildEv), (buildTrace inspSample)[i]? = some e →
      (buildTrace inspSample)[j]? = some e' → e.stage < e'.stage → i < j) ∧
    inspSample.run_with_create_info (fun ci => ci.parameters_add_info.std_sp_ss.length) =
      inspSample.createInfo.map (fun ci => ci.parameters_add_info.std_sp_ss.length) ∧
    (∀ ci, inspSample.createInfo = some ci →
      ci.parameters_add_info.std_sp_ss.length = inspSample.h264_context.sps.length ∧
      ci.parameters_add_info.std_pp_ss.length = inspSample.h264_context.pps.length) :=
  run_with_create_info_stages inspSample Nat
    (fun ci => ci.parameters_add_info.std_sp_ss.length)

/-- Bit k of 1 <<< n is set exactly at k = n. -/
theorem one_shiftLeft_testBit (n k : Nat) : (1 <<< n).testBit k = decide (n = k) := by
  rw [Nat.one_shiftLeft]
  by_cases h : n = k
  · subst h
    simp [Nat.testBit_two_pow_self]
  · simp [Nat.testBit_two_pow_of_ne h, h]

/-- The two masks accumulated by one scaling-list loop are the incoming masks
with the bits of the NotPresent (respectively UseDefault) entries OR-ed in. -/
theorem slLoop_masks (l : List ScalingList) :
    ∀ (shift i pm um : Nat) (rows : List (List Nat)),
      (slLoop shift i pm um rows l).1 = pm ||| selMask ScalingList.isNotPresent shift i l ∧
      (slLoop shift i pm um rows l).2.1 = um ||| selMask ScalingList.isUseDefault shift i l := by
  induction l with
  | nil =>
    intro shift i pm um rows
    simp [slLoop, selMask]
  | cons s rest ih =>
    intro shift i pm um rows
    cases s with
    | NotPresent =>
      simp only [slLoop, selMask, ScalingList.isNotPresent, ScalingList.isUseDefault,
        if_true, if_false, Nat.zero_or]
      rw [(ih shift (i + 1) _ _ rows).1, (ih shift (i + 1) _ _ rows).2]
      simp [Nat.or_assoc]
    | UseDefault =>
      simp only [slLoop, selMask, ScalingList.isNotPresent, ScalingList.isUseDefault,
        if_true, if_false, Nat.zero_or]
      rw [(ih shift (i + 1) _ _ rows).1, (ih shift (i + 1) _ _ rows).2]
      simp [Nat.or_assoc]
    | List elems =>
      simp only [slLoop, selMask, ScalingList.isNotPresent, ScalingList.isUseDefault,
        if_true, if_false, Nat.zero_or]
      rw [(ih shift (i + 1) _ _ _).1, (ih shift (i + 1) _ _ _).2]
      simp

/-- Bit characterization of selMask: bit k is set exactly when some entry at
index j satisfies the predicate and k = i + j + shift. -/
theorem selMask_testBit (p : ScalingList → Bool) (l : List ScalingList) :
    ∀ (shift i k : Nat),
      ((selMask p shift i l).testBit k = true) ↔
        ∃ j s, l[j]? = some s ∧ p s = true ∧ k = i + j + shift := by
  induction l with
  | nil =>
    intro shift i k
    simp [selMask]
  | cons s rest ih =>
    intro shift i k
    simp only [selMask, Nat.testBit_or, Bool.or_eq_true, ih shift (i + 1)]
    constructor
    · rintro (hbit | ⟨j, s', hj, hp, hk⟩)
      · by_cases hp : p s = true
        · rw [if_pos hp, one_shiftLeft_testBit] at hbit
          exact ⟨0, s, by simp, hp, by simp at hbit; omega⟩
        · rw [if_neg hp] at hbit
          simp [Nat.zero_testBit] at hbit
      · exact ⟨j + 1, s', by simpa using hj, hp, by omega⟩
    · rintro ⟨j, s', hj, hp, hk⟩
      cases j with
      | zero =>
        left
        simp only [List.getElem?_cons_zero, Option.some.injEq] at hj
        subst hj
        rw [if_pos hp, one_shiftLeft_testBit]
        simp
        omega
      | succ j' =>
        right
        exact ⟨j', s', by simpa using hj, hp, by omega⟩

/-- The rows below the loop's running index are untouched. -/
theorem slLoop_rows_lt (l : List ScalingList) :
    ∀ (shift i pm um : Nat) (rows : List (List Nat)) (m : Nat), m < i →
      ((slLoop shift i pm um rows l).2.2)[m]? = rows[m]? := by
  induction l with
  | nil =>
    intro shift i pm um rows m _
    rfl
  | cons s rest ih =>
    intro shift i pm um rows m hm
    cases s with
    | NotPresent => exact ih shift (i + 1) _ _ rows m (by omega)
    | UseDefault => exact ih shift (i + 1) _ _ rows m (by omega)
    | List elems =>
      rw [show slLoop shift i pm um rows (ScalingList.List elems :: rest) =
        slLoop shift (i + 1) pm um (rows.set i elems) rest from rfl]
      rw [ih shift (i + 1) _ _ _ m (by omega)]
      exact List.getElem?_set_ne (by omega)

/-- A List entry at index j is copied into row i + j of the output array. -/
theorem slLoop_rows_get (l : List ScalingList) :
    ∀ (shift i pm um : Nat) (rows : List (List Nat)) (j : Nat) (elems : List Nat),
      l[j]? = some (ScalingList.List elems) → i + j < rows.length →
      ((slLoop shift i pm um rows l).2.2)[i + j]? = some elems := by
  induction l with
  | nil =>
    intro _ _ _ _ _ j _ hj _
    simp at hj
  | cons s rest ih =>
    intro shift i pm um rows j elems hj hlen
    cases j with
    | zero =>
      simp only [List.getElem?_cons_zero, Option.some.injEq] at hj
      subst hj
      rw [show slLoop shift i pm um rows (ScalingList.List elems :: rest) =
        slLoop shift (i + 1) pm um (rows.set i elems) rest from rfl]
      rw [slLoop_rows_lt rest shift (i + 1) pm um _ (i + 0) (by omega)]
      rw [show i + 0 = i from rfl]
      rw [List.getElem?_set_self (by omega)]
    | succ j' =>
      have hj' : rest[j']? = some (ScalingList.List elems) := by simpa using hj
      have hstep : ∀ rows' : List (List Nat), rows'.length = rows.length →
          ((slLoop shift (i + 1) pm um rows' rest).2.2)[(i + 1) + j']? = some elems := by
        intro rows' hlen'
        exact ih shift (i + 1) pm um rows' j' elems hj' (by omega)
      have harith : i + (j' + 1) = (i + 1) + j' := by omega
      cases s with
      | NotPresent =>
        rw [show slLoop shift i pm um rows (ScalingList.NotPresent :: rest) =
          slLoop shift (i + 1) (pm ||| (1 <<< (i + shift))) um rows rest from rfl]
        rw [harith]
        exact ih shift (i + 1) _ um rows j' elems hj' (by omega)
      | UseDefault =>
        rw [show slLoop shift i pm um rows (ScalingList.UseDefault :: rest) =
          slLoop shift (i + 1) pm (um ||| (1 <<< (i + shift))) rows rest from rfl]
        rw [harith]
        exact ih shift (i + 1) pm _ rows j' elems hj' (by omega)
      | List e0 =>
        rw [show slLoop shift i pm um rows (ScalingList.List e0 :: rest) =
          slLoop shift (i + 1) pm um (rows.set i e0) rest from rfl]
        rw [harith]
        exact ih shift (i + 1) pm um _ j' elems hj' (by simp; omega)

/-- Claim C10: in the native scaling-list structure, bit i of the
present mask is set exactly when 4x4 input list i is the NotPresent variant
and bit i of the use-default mask exactly when it is UseDefault; the 8x8
lists occupy bits 6 through 11 of the same masks; consequently the two masks
are bitwise disjoint; and a List variant's elements are copied into row i of
the corresponding output array. -/
theorem scaling_list_masks (l4 l8 : List ScalingList) (r : StdVideoH264ScalingLists)
    (i4 i8 : Nat) (h : scaling_list l4 l8 = some r)
    (hi4 : i4 < SCALING_LIST4X4_NUM_LISTS) (hi8 : i8 < SCALING_LIST8X8_NUM_LISTS) :
    (r.scaling_list_present_mask.testBit i4 = true ↔ l4[i4]? = some ScalingList.NotPresent) ∧
    (r.use_default_scaling_matrix_mask.testBit i4 = true ↔
      l4[i4]? = some ScalingList.UseDefault) ∧
    (r.scaling_list_present_mask.testBit (i8 + SCALING_LIST4X4_NUM_LISTS) = true ↔
      l8[i8]? = some ScalingList.NotPresent) ∧
    (r.use_default_scaling_matrix_mask.testBit (i8 + SCALING_LIST4X4_NUM_LISTS) = true ↔
      l8[i8]? = some ScalingList.UseDefault) ∧
    r.scaling_list_present_mask &&& r.use_default_scaling_matrix_mask = 0 ∧
    (∀ elems, l4[i4]? = some (ScalingList.List elems) → r.ScalingList4x4[i4]? = some elems) ∧
    (∀ elems, l8[i8]? = some (ScalingList.List elems) → r.ScalingList8x8[i8]? = some elems) := by
  have hi4' : i4 < 6 := hi4
  have hi8' : i8 < 6 := hi8
  unfold scaling_list at h
  split at h
  case isFalse => cases h
  case isTrue hc =>
    have hc4 : l4.length ≤ 6 := hc.1
    have hc8 : l8.length ≤ 6 := hc.2
    cases h
    dsimp only
    set rows4 := List.replicate SCALING_LIST4X4_NUM_LISTS
      (List.replicate SCALING_LIST4X4_NUM_ELEMENTS 0) with hrows4
    set rows8 := List.replicate SCALING_LIST8X8_NUM_LISTS
      (List.replicate SCALING_LIST8X8_NUM_ELEMENTS 0) with hrows8
    set r4 := slLoop 0 0 0 0 rows4 l4 with hr4
    set r8 := slLoop SCALING_LIST4X4_NUM_LISTS 0 r4.1 r4.2.1 rows8 l8 with hr8
    obtain ⟨h41, h42⟩ := slLoop_masks l4 0 0 0 0 rows4
    obtain ⟨h81, h82⟩ := slLoop_masks l8 SCALING_LIST4X4_NUM_LISTS 0 r4.1 r4.2.1 rows8
    rw [← hr4] at h41 h42
    rw [← hr8] at h81 h82
    have hpmChar : ∀ k, (r8.1.testBit k = true) ↔
        ((∃ j s, l4[j]? = some s ∧ s.isNotPresent = true ∧ k = j) ∨
          (∃ j s, l8[j]? = some s ∧ s.isNotPresent = true ∧ k = j + 6)) := by
      intro k
      rw [h81, h41]
      simp only [Nat.zero_or, Nat.testBit_or, Bool.or_eq_true, selMask_testBit]
      constructor
      · rintro (⟨j, s, hj, hp, hk⟩ | ⟨j, s, hj, hp, hk⟩)
        · exact Or.inl ⟨j, s, hj, hp, by omega⟩
        · refine Or.inr ⟨j, s, hj, hp, ?_⟩
          simp only [SCALING_LIST4X4_NUM_LISTS] at hk
          omega
      · rintro (⟨j, s, hj, hp, hk⟩ | ⟨j, s, hj, hp, hk⟩)
        · exact Or.inl ⟨j, s, hj, hp, by omega⟩
        · refine Or.inr ⟨j, s, hj, hp, ?_⟩
          simp only [SCALING_LIST4X4_NUM_LISTS]
          omega
    have hudChar : ∀ k, (r8.2.1.testBit k = true) ↔
        ((∃ j s, l4[j]? = some s ∧ s.isUseDefault = true ∧ k = j) ∨
          (∃ j s, l8[j]? = some s ∧ s.isUseDefault = true ∧ k = j + 6)) := by
      intro k
      rw [h82, h42]
      simp only [Nat.zero_or, Nat.testBit_or, Bool.or_eq_true, selMask_testBit]
      constructor
      · rintro (⟨j, s, hj, hp, hk⟩ | ⟨j, s, hj, hp, hk⟩)
        · exact Or.inl ⟨j, s, hj, hp, by omega⟩
        · refine Or.inr ⟨j, s, hj, hp, ?_⟩
          simp only [SCALING_LIST4X4_NUM_LISTS] at hk
          omega
      · rintro (⟨j, s, hj, hp, hk⟩ | ⟨j, s, hj, hp, hk⟩)
        · exact Or.inl ⟨j, s, hj, hp, by omega⟩
        · refine Or.inr ⟨j, s, hj, hp, ?_⟩
          simp only [SCALING_LIST4X4_NUM_LISTS]
          omega
    refine ⟨?_, ?_, ?_, ?_, ?_, ?_, ?_⟩
    · rw [hpmChar]
      constructor
      · rintro (⟨j, s, hj, hp, rfl⟩ | ⟨j, s, hj, hp, hk⟩)
        · cases s <;> simp [ScalingList.isNotPresent] at hp
          exact hj
        · omega
      · intro hget
        exact Or.inl ⟨i4, ScalingList.NotPresent, hget, rfl, rfl⟩
    · rw [hudChar]
      constructor
      · rintro (⟨j, s, hj, hp, rfl⟩ | ⟨j, s, hj, hp, hk⟩)
        · cases s <;> simp [ScalingList.isUseDefault] at hp
          exact hj
        · omega
      · intro hget
        exact Or.inl ⟨i4, ScalingList.UseDefault, hget, rfl, rfl⟩
    · have h6 : i8 + SCALING_LIST4X4_NUM_LISTS = i8 + 6 := rfl
      rw [h6, hpmChar]
      constructor
      · rintro (⟨j, s, hj, hp, hk⟩ | ⟨j, s, hj, hp, hk⟩)
        · have : j < l4.length := (List.getElem?_eq_some.mp hj).1
          omega
        · have : j = i8 := by omega
          subst this
          cases s <;> simp [ScalingList.isNotPresent] at hp
          exact hj
      · intro hget
        exact Or.inr ⟨i8, ScalingList.NotPresent, hget, rfl, rfl⟩
    · have h6 : i8 + SCALING_LIST4X4_NUM_LISTS = i8 + 6 := rfl
      rw [h6, hudChar]
      constructor
      · rintro (⟨j, s, hj, hp, hk⟩ | ⟨j, s, hj, hp, hk⟩)
        · have : j < l4.length := (List.getElem?_eq_some.mp hj).1
          omega
        · have : j = i8 := by omega
          subst this
          cases s <;> simp [ScalingList.isUseDefault] at hp
          exact hj
      · intro hget
        exact Or.inr ⟨i8, ScalingList.UseDefault, hget, rfl, rfl⟩
    · apply Nat.eq_of_testBit_eq
      intro k
      rw [Nat.testBit_and, Nat.zero_testBit]
      by_cases hpm : r8.1.testBit k = true
      · rw [hpm, Bool.true_and]
        by_contra hud
        rw [Bool.not_eq_false] at hud
        rcases (hpmChar k).mp hpm with ⟨j, s, hj, hp, hk⟩ | ⟨j, s, hj, hp, hk⟩ <;>
          rcases (hudChar k).mp hud with ⟨j', s', hj', hp', hk'⟩ | ⟨j', s', hj', hp', hk'⟩
        · have : j' = j := by omega
          subst this
          rw [hj] at hj'
          cases hj'
          cases s <;> simp [ScalingList.isNotPresent, ScalingList.isUseDefault] at hp hp'
        · have hjl : j < l4.length := (List.getElem?_eq_some.mp hj).1
          omega
        · have hjl : j' < l4.length := (List.getElem?_eq_some.mp hj').1
          omega
        · have : j' = j := by omega
          subst this
          rw [hj] at hj'
          cases hj'
          cases s <;> simp [ScalingList.isNotPresent, ScalingList.isUseDefault] at hp hp'
      · rw [Bool.not_eq_true] at hpm
        rw [hpm, Bool.false_and]
    · intro elems hget
      have hlen : (0 : Nat) + i4 < rows4.length := by
        rw [hrows4]
        simp [SCALING_LIST4X4_NUM_LISTS]
        omega
      have := slLoop_rows_get l4 0 0 0 0 rows4 i4 elems hget hlen
      rw [← hr4] at this
      simpa using this
    · intro elems hget
      have hlen : (0 : Nat) + i8 < rows8.length := by
        rw [hrows8]
        simp [SCALING_LIST8X8_NUM_LISTS]
        omega
      have := slLoop_rows_get l8 SCALING_LIST4X4_NUM_LISTS 0 r4.1 r4.2.1 rows8 i8 elems
        hget hlen
      rw [← hr8] at this
      simpa using this

/-- Witness for scaling_list_masks at a concrete input with one list of each
variant. -/
theorem scaling_list_masks_witness :
    ((scalingSampleResult.scaling_list_present_mask.testBit 0 = true ↔
      scalingSample4[0]? = some ScalingList.NotPresent) ∧
    (scalingSampleResult.use_default_scaling_matrix_mask.testBit 0 = true ↔
      scalingSample4[0]? = some ScalingList.UseDefault) ∧
    (scalingSampleResult.scaling_list_present_mask.testBit (0 + SCALING_LIST4X4_NUM_LISTS) =
        true ↔ scalingSample8[0]? = some ScalingList.NotPresent) ∧
    (scalingSampleResult.use_default_scaling_matrix_mask.testBit
        (0 + SCALING_LIST4X4_NUM_LISTS) = true ↔
      scalingSample8[0]? = some ScalingList.UseDefault) ∧
    scalingSampleResult.scaling_list_present_mask &&&
      scalingSampleResult.use_default_scaling_matrix_mask = 0 ∧
    (∀ elems, scalingSample4[0]? = some (ScalingList.List elems) →
      scalingSampleResult.ScalingList4x4[0]? = some elems) ∧
    (∀ elems, scalingSample8[0]? = some (ScalingList.List elems) →
      scalingSampleResult.ScalingList8x8[0]? = some elems)) :=
  scaling_list_masks scalingSample4 scalingSample8 scalingSampleResult 0 0 (by rfl)
    (by decide) (by decide)

/-- A successful scan returns an iterator position past its starting point
and within the scanned bytes. -/
theorem nextOff_bounds (l : List Nat) :
    ∀ (c i o p : Nat), nextOff c i l = some (o, p) → i + 1 ≤ p ∧ p ≤ i + l.length := by
  induction l with
  | nil =>
    intro c i o p h
    cases h
  | cons b rest ih =>
    intro c i o p h
    unfold nextOff at h
    split at h
    · have := ih _ _ _ _ h
      simp only [List.length_cons]
      omega
    · split at h
      · cases h
        simp only [List.length_cons]
        omega
      · have := ih _ _ _ _ h
        simp only [List.length_cons]
        omega

/-- A found offset advances the iterator position, staying within the stream. -/
theorem next_offset_bounds (s : List Nat) (pos o p : Nat)
    (h : next_offset s pos = some (o, p)) : pos + 1 ≤ p ∧ p ≤ s.length := by
  unfold next_offset at h
  have hb := nextOff_bounds (s.drop pos) 0 pos o p h
  by_cases hle : pos ≤ s.length
  · rw [List.length_drop] at hb
    omega
  · rw [List.drop_eq_nil_of_le (by omega)] at h
    cases h

/-- Sufficient fuel makes offsetsFrom independent of the fuel amount. -/
theorem offsetsFrom_congr :
    ∀ (f g : Nat) (s : List Nat) (pos : Nat), s.length - pos < f → s.length - pos < g →
      offsetsFrom f s pos = offsetsFrom g s pos := by
  intro f
  induction f with
  | zero =>
    intro g s pos hf
    omega
  | succ f ih =>
    intro g s pos hf hg
    cases g with
    | zero => omega
    | succ g =>
      rw [offsetsFrom, offsetsFrom]
      rcases hno : next_offset s pos with _ | ⟨o, p⟩
      · rfl
      · have hb := next_offset_bounds s pos o p hno
        dsimp only
        rw [ih g s p (by omega) (by omega)]

/-- offsets computed starting from a position unfold one next_offset step at
a time. -/
theorem offsetsAt_unfold (s : List Nat) (pos : Nat) (hpos : pos ≤ s.length) :
    offsetsAt s pos =
      match next_offset s pos with
      | none => []
      | some (o, p) => o :: offsetsAt s p := by
  unfold offsetsAt
  rw [show s.length + 1 - pos = (s.length - pos) + 1 from by omega]
  rw [offsetsFrom]
  rcases hno : next_offset s pos with _ | ⟨o, p⟩
  · rfl
  · have hb := next_offset_bounds s pos o p hno
    have heq : offsetsFrom (s.length - pos) s p = offsetsFrom (s.length + 1 - p) s p :=
      offsetsFrom_congr (s.length - pos) (s.length + 1 - p) s p (by omega) (by omega)
    dsimp only
    rw [heq]

/-- The full offsets list is the offsets from position 0. -/
theorem offsets_eq_offsetsAt (s : List Nat) : offsets s = offsetsAt s 0 := by
  simp [offsets, offsetsAt]

/-- An ended iterator collects nothing. -/
theorem collect_end (fuel : Nat) (s : List Nat) (pos : Nat) (h : 1 ≤ fuel) :
    NalIter.collect fuel ⟨s, pos, NalIterState.End⟩ = [] := by
  cases fuel with
  | zero => omega
  | succ f => rfl

/-- An iterator in the Last state emits the trailing slice and ends. -/
theorem collect_last (fuel : Nat) (s : List Nat) (pos a : Nat) (h : 2 ≤ fuel) :
    NalIter.collect fuel ⟨s, pos, NalIterState.Last a⟩ = [s.drop a] := by
  cases fuel with
  | zero => omega
  | succ f =>
    rw [NalIter.collect]
    rw [show NalIter.step ⟨s, pos, NalIterState.Last a⟩ =
      some (s.drop a, ⟨s, pos, NalIterState.End⟩) from rfl]
    dsimp only
    rw [collect_end f s pos (by omega)]

/-- An iterator in the Next state with enough fuel collects exactly the
declarative chunk decomposition of its pending and future boundaries. -/
theorem collect_next (fuel : Nat) :
    ∀ (s : List Nat) (pos a b : Nat), pos ≤ s.length → s.length - pos + 3 ≤ fuel →
      NalIter.collect fuel ⟨s, pos, NalIterState.Next a b⟩ =
        chunks s (a :: b :: offsetsAt s pos) := by
  induction fuel with
  | zero =>
    intro s pos a b hpos hfuel
    omega
  | succ f ih =>
    intro s pos a b hpos hfuel
    rw [NalIter.collect]
    rcases hno : next_offset s pos with _ | ⟨o, p⟩
    · rw [show NalIter.step ⟨s, pos, NalIterState.Next a b⟩ =
        some (slice s a b, ⟨s, pos, NalIterState.Last b⟩) from by
          unfold NalIter.step
          rw [hno]]
      dsimp only
      rw [collect_last f s pos b (by omega)]
      rw [offsetsAt_unfold s pos hpos, hno]
      rfl
    · rw [show NalIter.step ⟨s, pos, NalIterState.Next a b⟩ =
        some (slice s a b, ⟨s, p, NalIterState.Next b o⟩) from by
          unfold NalIter.step
          rw [hno]]
      have hb := next_offset_bounds s pos o p hno
      dsimp only
      rw [ih s p b o (by omega) (by omega)]
      rw [offsetsAt_unfold s pos hpos, hno]
      rfl

/-- The NAL iterator equals the declarative decomposition: unit i spans from
its own boundary up to (not including) the next boundary, the last unit to
the end of the buffer. -/
theorem nal_units_eq_chunks (s : List Nat) : nal_units s = chunks s (offsets s) := by
  unfold nal_units NalIter.new
  rcases h0 : next_offset s 0 with _ | ⟨o1, p1⟩
  · dsimp only
    rw [collect_end _ _ _ (by omega)]
    rw [offsets_eq_offsetsAt, offsetsAt_unfold s 0 (by omega), h0]
    rfl
  · have hb1 := next_offset_bounds s 0 o1 p1 h0
    dsimp only
    rcases h1 : next_offset s p1 with _ | ⟨o2, p2⟩
    · dsimp only
      rw [collect_last _ _ _ _ (by omega)]
      rw [offsets_eq_offsetsAt, offsetsAt_unfold s 0 (by omega), h0]
      dsimp only
      rw [offsetsAt_unfold s p1 (by omega), h1]
      rfl
    · have hb2 := next_offset_bounds s p1 o2 p2 h1
      dsimp only
      rw [collect_next (s.length + 2) s p2 o1 o2 (by omega) (by omega)]
      rw [offsets_eq_offsetsAt, offsetsAt_unfold s 0 (by omega), h0]
      dsimp only
      rw [offsetsAt_unfold s p1 (by omega), h1]

/-- A scan that does not fire inside the payload finds the appended start
code exactly at the payload's end. -/
theorem nextOff_append_001 (p : List Nat) :
    ∀ (c i : Nat), firesEarly c p = false →
      nextOff c i (p ++ [0, 0, 1]) = some (i + p.length, i + p.length + 3) := by
  induction p with
  | nil =>
    intro c i _
    simp [nextOff, NAL_MIN_0_COUNT]
  | cons b rest ih =>
    intro c i h
    unfold firesEarly at h
    show nextOff c i (b :: (rest ++ [0, 0, 1])) = _
    unfold nextOff
    by_cases hb0 : b = 0
    · rw [if_pos hb0] at h ⊢
      rw [ih (c + 1) (i + 1) h]
      simp only [List.length_cons]
      congr 2 <;> omega
    · rw [if_neg hb0] at h ⊢
      by_cases hb1 : b = 1 ∧ NAL_MIN_0_COUNT ≤ c
      · rw [if_pos hb1] at h
        cases h
      · rw [if_neg hb1] at h ⊢
        rw [ih 0 (i + 1) h]
        simp only [List.length_cons]
        congr 2 <;> omega

/-- Dropping the head preserves the absence of a start code. -/
theorem hasStartCode_tail (b : Nat) (rest : List Nat)
    (h : hasStartCode (b :: rest) = false) : hasStartCode rest = false := by
  match rest with
  | [] => rfl
  | [b1] => rfl
  | b1 :: b2 :: r =>
    rw [hasStartCode] at h
    simp only [Bool.or_eq_false_iff] at h
    exact h.2

/-- A start-code-free list starting with 0 cannot continue with the 0 1 pair. -/
theorem hasStartCode_zero_head01 (rest : List Nat)
    (h : hasStartCode (0 :: rest) = false) : head01 rest = false := by
  match rest with
  | [] => rfl
  | [b1] => rfl
  | b1 :: b2 :: r =>
    rw [hasStartCode] at h
    simp only [Bool.or_eq_false_iff] at h
    have := h.1
    simp only [head01]
    simp only [decide_eq_true_eq] at this ⊢
    by_cases h0 : b1 = 0 <;> by_cases h1 : b2 = 1 <;> simp_all

/-- head01 after a leading zero is head1 of the tail. -/
theorem head01_zero (l : List Nat) : head01 (0 :: l) = head1 l := by
  cases l <;> simp [head01, head1]

/-- The scan does not fire inside a start-code-free byte list, provided the
carried zero count cannot combine with the list's first bytes. -/
theorem firesEarly_false (p : List Nat) :
    ∀ c, hasStartCode p = false → (NAL_MIN_0_COUNT ≤ c → head1 p = false) →
      (1 ≤ c → head01 p = false) → firesEarly c p = false := by
  induction p with
  | nil =>
    intro c _ _ _
    rfl
  | cons b rest ih =>
    intro c hsc h1 h01
    unfold firesEarly
    by_cases hb0 : b = 0
    · rw [if_pos hb0]
      subst hb0
      apply ih (c + 1) (hasStartCode_tail 0 rest hsc)
      · intro hc
        have hc2 : (2 : Nat) ≤ c + 1 := hc
        rw [← head01_zero]
        exact h01 (by omega)
      · intro _
        exact hasStartCode_zero_head01 rest hsc
    · rw [if_neg hb0]
      by_cases hb1 : b = 1 ∧ NAL_MIN_0_COUNT ≤ c
      · exfalso
        have := h1 hb1.2
        rw [head1, hb1.1] at this
        simp at this
      · rw [if_neg hb1]
        refine ih 0 (hasStartCode_tail b rest hsc) ?_ ?_
        · intro h
          have h2 : (2 : Nat) ≤ 0 := h
          omega
        · intro h
          omega

/-- The boundary offsets of a two-unit buffer: the leading start code and the
appended one right after the payload. -/
theorem offsets_twoUnits (p : List Nat) (hp : hasStartCode p = false) :
    offsets ([0, 0, 1] ++ p ++ [0, 0, 1]) = [0, 3 + p.length] := by
  have hlen : ([0, 0, 1] ++ p ++ [0, 0, 1]).length = p.length + 6 := by
    simp
  have hfe : firesEarly 0 p = false := by
    refine firesEarly_false p 0 hp ?_ ?_
    · intro h
      have h2 : (2 : Nat) ≤ 0 := h
      omega
    · intro h
      omega
  have h0 : next_offset ([0, 0, 1] ++ p ++ [0, 0, 1]) 0 = some (0, 3) := by
    unfold next_offset
    rw [List.drop_zero]
    show nextOff 0 0 (0 :: 0 :: 1 :: (p ++ [0, 0, 1])) = some (0, 3)
    simp [nextOff, NAL_MIN_0_COUNT]
  have h1 : next_offset ([0, 0, 1] ++ p ++ [0, 0, 1]) 3 =
      some (3 + p.length, 6 + p.length) := by
    unfold next_offset
    have hd : ([0, 0, 1] ++ p ++ [0, 0, 1]).drop 3 = p ++ [0, 0, 1] := rfl
    rw [hd]
    rw [nextOff_append_001 p 0 3 hfe]
    congr 2
    omega
  have h2 : next_offset ([0, 0, 1] ++ p ++ [0, 0, 1]) (6 + p.length) = none := by
    unfold next_offset
    rw [List.drop_eq_nil_of_le (by omega)]
    rfl
  rw [offsets_eq_offsetsAt, offsetsAt_unfold _ 0 (by omega), h0]
  dsimp only
  rw [offsetsAt_unfold _ 3 (by omega), h1]
  dsimp only
  rw [offsetsAt_unfold _ (6 + p.length) (by omega), h2]

/-- Claim C9: a buffer of the form start-code, payload without start code,
start-code segments into exactly two NAL units, each beginning with its own
start code (the first carries the payload, the second is the bare trailing
start code); and in general the emitted units are exactly the declarative
chunks of the boundary offsets: unit i spans from its own boundary up to but
not including the start of unit i + 1, the last unit to the end of the
buffer. -/
theorem nal_units_segmentation (p : List Nat) (hp : hasStartCode p = false) :
    nal_units ([0, 0, 1] ++ p ++ [0, 0, 1]) = [[0, 0, 1] ++ p, [0, 0, 1]] ∧
    (∀ s : List Nat, nal_units s = chunks s (offsets s)) := by
  refine ⟨?_, nal_units_eq_chunks⟩
  rw [nal_units_eq_chunks, offsets_twoUnits p hp]
  show chunks _ (0 :: (3 + p.length) :: []) = _
  rw [chunks, chunks]
  have htake : slice ([0, 0, 1] ++ p ++ [0, 0, 1]) 0 (3 + p.length) = [0, 0, 1] ++ p := by
    unfold slice
    rw [List.drop_zero, Nat.sub_zero]
    exact List.take_left' (by simp; omega)
  have hdrop : ([0, 0, 1] ++ p ++ [0, 0, 1]).drop (3 + p.length) = [0, 0, 1] :=
    List.drop_left' (by simp; omega)
  rw [htake, hdrop]

/-- Witness for nal_units_segmentation at the one-byte payload 2. -/
theorem nal_units_segmentation_witness :
    nal_units ([0, 0, 1] ++ [2] ++ [0, 0, 1]) = [[0, 0, 1] ++ [2], [0, 0, 1]] ∧
    (∀ s : List Nat, nal_units s = chunks s (offsets s)) :=
  nal_units_segmentation [2] (by decide)

end VulkanVideo
